import Mathlib

/-!
Verification development for the `tunesmith` repository
(`src/agent/agent.py`, `src/agent/agent_redundant.py`, `src/api/server.py`,
`src/config.py`).

The Python code is shallowly embedded:
* JSON-like Python values (the dictionaries exchanged with the Spotify API
  and returned by the wrapped calls) become the inductive `JVal`;
* the spotipy / requests / agent-executor calls become oracle functions
  gathered in environment structures (`SpotifyEnv`, ...), each returning
  `Except PyExn _` so that an external call may raise;
* Python exception handling becomes explicit `Except` plumbing, with the
  `try/except` blocks of the source modelled by catch functions;
* the sequence of outbound API calls a method performs is recorded in a
  trace (`List ApiCall`) so that effect-ordering claims can be stated;
* Flask session / the global `agent_instances` dictionary become explicit
  association lists threaded through the route functions.
-/

/-- A Python value as used by the repository: `None`, booleans, integers,
strings, lists, dictionaries (string-keyed, as all dictionaries in this
code are). -/
inductive JVal where
  | null : JVal
  | bool : Bool → JVal
  | int : Int → JVal
  | str : String → JVal
  | arr : List JVal → JVal
  | obj : List (String × JVal) → JVal

/-- Python truthiness: `None`, `False`, `0`, `""`, `[]`, `{}` are falsy. -/
def JVal.truthy : JVal → Bool
  | .null => false
  | .bool b => b
  | .int n => n != 0
  | .str s => s != ""
  | .arr xs => !xs.isEmpty
  | .obj kvs => !kvs.isEmpty

/-- Python exceptions raised by the embedded code.  `spotifyExc` carries the
`http_status` and optional `msg` and `reason` attributes of spotipy's
`SpotifyException`; `requestExc` is `requests.exceptions.RequestException`. -/
inductive PyExn where
  | spotifyExc : Int → Option String → Option String → PyExn
  | requestExc : String → PyExn
  | keyError : String → PyExn
  | typeError : String → PyExn
  | indexError : String → PyExn
  | attributeError : String → PyExn
  | other : String → PyExn

/-- `str(e)` for a generic Python exception (only the cases that can reach a
generic `except Exception` handler in the embedded code matter; a
`KeyError` stringifies to the quoted key). -/
def pyExnStr : PyExn → String
  | .spotifyExc st _ _ => "SpotifyException " ++ toString st
  | .requestExc m => m
  | .keyError k => "'" ++ k ++ "'"
  | .typeError m => m
  | .indexError m => m
  | .attributeError m => m
  | .other m => m

/-- Association-list lookup on the fields of a dictionary value (`None` for
a non-dictionary). -/
def pyLookup (v : JVal) (k : String) : Option JVal :=
  match v with
  | .obj kvs => kvs.lookup k
  | _ => none

/-- Python `d.get(k, default)`: only dictionaries have `.get`; any other
value raises `AttributeError`. -/
def pyGetD (v : JVal) (k : String) (dflt : JVal) : Except PyExn JVal :=
  match v with
  | .obj kvs => .ok ((kvs.lookup k).getD dflt)
  | _ => .error (.attributeError ("no attribute get"))

/-- Python `d[k]` for a string key: `KeyError` if the key is missing from a
dictionary, `TypeError` on any non-dictionary value. -/
def pyIndex (v : JVal) (k : String) : Except PyExn JVal :=
  match v with
  | .obj kvs =>
    match kvs.lookup k with
    | some w => .ok w
    | none => .error (.keyError k)
  | _ => .error (.typeError "value is not subscriptable by string")

/-- Python `xs[i]` for a non-negative integer index: list element or string
character (out of range raises `IndexError`); any other value raises
`TypeError`. -/
def pyIndexNat (v : JVal) (i : Nat) : Except PyExn JVal :=
  match v with
  | .arr xs =>
    match xs.get? i with
    | some w => .ok w
    | none => .error (.indexError "list index out of range")
  | .str s =>
    match s.data.get? i with
    | some c => .ok (.str (String.mk [c]))
    | none => .error (.indexError "string index out of range")
  | _ => .error (.typeError "value is not subscriptable by integer")

/-- Python iteration `for x in v`: lists yield their elements, strings their
characters, dictionaries their keys; other values raise `TypeError`. -/
def pyIter (v : JVal) : Except PyExn (List JVal) :=
  match v with
  | .arr xs => .ok xs
  | .str s => .ok (s.data.map (fun c => .str (String.mk [c])))
  | .obj kvs => .ok (kvs.map (fun kv => .str kv.1))
  | _ => .error (.typeError "value is not iterable")

/-- Python `k in v` for a string `k`: key membership for dictionaries,
element equality for lists (a string only ever equals a string), substring
test for strings; other values raise `TypeError`. -/
def pyContains (v : JVal) (k : String) : Except PyExn Bool :=
  match v with
  | .obj kvs => .ok (kvs.any (fun kv => kv.1 == k))
  | .arr xs => .ok (xs.any (fun x => match x with | .str s => s == k | _ => false))
  | .str s => .ok ((s.splitOn k).length != 1)
  | _ => .error (.typeError "argument of type is not a container")

/-- Substring test used for Python's `needle in haystack` on strings (all
needles in this code are non-empty). -/
def strContains (hay needle : String) : Bool := (hay.splitOn needle).length != 1

/-! ## The Spotify client (`src/agent/agent.py`, class `SpotifyClient`) -/

/-- One outbound spotipy API call, as issued by the wrapped client methods.
Device / playlist identifiers are carried as the Python values the code
passes (they come out of earlier API responses). -/
inductive ApiCall where
  | search : String → Int → ApiCall
  | currentUser : ApiCall
  | userPlaylistCreate : JVal → String → Bool → String → ApiCall
  | playlistAddItems : JVal → List String → ApiCall
  | playlistFetch : JVal → String → ApiCall
  | playlistItems : JVal → String → Int → Int → ApiCall
  | devices : ApiCall
  | transferPlayback : JVal → Bool → ApiCall
  | sleep : Nat → ApiCall
  | startPlayback : Option JVal → Option String → ApiCall
  | pausePlayback : ApiCall
  | nextTrack : ApiCall
  | previousTrack : ApiCall

/-- Oracle for the spotipy endpoints the client calls.  Each field gives, for
the arguments the code passes, either the JSON value the call returns or the
exception it raises. -/
structure SpotifyEnv where
  searchRes : String → Int → Except PyExn JVal
  currentUserRes : Except PyExn JVal
  userPlaylistCreateRes : JVal → String → Bool → String → Except PyExn JVal
  playlistAddItemsRes : JVal → List String → Except PyExn JVal
  playlistFetchRes : JVal → String → Except PyExn JVal
  playlistItemsRes : JVal → String → Int → Int → Except PyExn JVal
  devicesRes : Except PyExn JVal
  transferRes : JVal → Bool → Except PyExn JVal
  startPlaybackRes : Option JVal → Option String → Except PyExn JVal
  pauseRes : Except PyExn JVal
  nextRes : Except PyExn JVal
  previousRes : Except PyExn JVal
  removeItemsRes : JVal → List String → Except PyExn JVal
  reauthRes : Except PyExn JVal

/-- The authentication-relevant state of a `SpotifyClient`: whether `self.sp`
is set and whether `self.sp_oauth` is set. -/
structure ClientState where
  sp : Bool
  spOauth : Bool

/-- `SpotifyClient._ensure_client`: `True` when `self.sp` is already set;
otherwise, when `self.sp_oauth` exists, try `get_access_token(check_cache=
True)` — a truthy token re-creates the client and returns `True`, a falsy
result or an exception returns `False`; without `sp_oauth`, `False`. -/
def ensureClient (st : ClientState) (env : SpotifyEnv) : Bool × ClientState :=
  if st.sp then (true, st)
  else if st.spOauth then
    match env.reauthRes with
    | .ok tok => if tok.truthy then (true, { st with sp := true }) else (false, st)
    | .error _ => (false, st)
  else (false, st)

/-- The dictionary `{"error": "Not authenticated with Spotify"}` every
wrapped call returns when `_ensure_client` fails. -/
def notAuthDict : JVal := .obj [("error", .str "Not authenticated with Spotify")]

/-- The error string built in the `except SpotifyException` handlers:
`f"Spotify API error: {e.msg}"` when the exception has a truthy `msg`,
otherwise `f"Spotify API error code: {e.http_status}"`. -/
def spotifyErrMsg (status : Int) (msg : Option String) : String :=
  match msg with
  | some m => if m != "" then "Spotify API error: " ++ m
              else "Spotify API error code: " ++ toString status
  | none => "Spotify API error code: " ++ toString status

/-- The `try/except SpotifyException/except Exception` pattern shared by the
wrapped calls: a normal body result passes through, a `SpotifyException`
becomes the `spotifyErrMsg` error dictionary, any other exception becomes
`{"error": str(e)}`.  (The call trace of a body that raised is dropped; no
claim inspects it.) -/
def catchSpotify (r : Except PyExn (JVal × List ApiCall)) : JVal × List ApiCall :=
  match r with
  | .ok vt => vt
  | .error (.spotifyExc st msg _) => (.obj [("error", .str (spotifyErrMsg st msg))], [])
  | .error e => (.obj [("error", .str (pyExnStr e))], [])

/-- Track simplification in `search_tracks`: `{"name": track.get("name"),
"artists": [artist.get("name") for artist in track.get("artists", [])],
"uri": track.get("uri"), "id": track.get("id")}`. -/
def simplifyTrackSearch (track : JVal) : Except PyExn JVal := do
  let name ← pyGetD track "name" .null
  let artistsV ← pyGetD track "artists" (.arr [])
  let artistsL ← pyIter artistsV
  let artistNames ← artistsL.mapM (fun a => pyGetD a "name" .null)
  let uri ← pyGetD track "uri" .null
  let id ← pyGetD track "id" .null
  pure (.obj [("name", name), ("artists", .arr artistNames), ("uri", uri), ("id", id)])

/-- The `if spotify_tracks:`-guarded simplification loop of
`search_tracks`. -/
def collectTracks (itemsV : JVal) : Except PyExn (List JVal) :=
  if itemsV.truthy then do
    let items ← pyIter itemsV
    items.mapM simplifyTrackSearch
  else pure []

/-- Body of `SpotifyClient.search_tracks` inside the `try`: one
`sp.search(q=query, type=track, limit=limit)` call, then the simplified
track list is built from `results.get("tracks", ...).get("items", [])` and
returned under the `tracks` key. -/
def searchBody (env : SpotifyEnv) (query : String) (limit : Int) :
    Except PyExn (JVal × List ApiCall) := do
  let results ← env.searchRes query limit
  let tracksV ← pyGetD results "tracks" (.obj [])
  let itemsV ← pyGetD tracksV "items" (.arr [])
  let simplified ← collectTracks itemsV
  pure (.obj [("tracks", .arr simplified)], [.search query limit])

/-- `SpotifyClient.search_tracks` (agent.py): authentication guard, then the
body under the standard exception handlers. -/
def search_tracks (st : ClientState) (env : SpotifyEnv) (query : String)
    (limit : Int) : JVal × List ApiCall :=
  if (ensureClient st env).1 then catchSpotify (searchBody env query limit)
  else (notAuthDict, [])

/-- `SpotifyClient.get_current_user_profile` (agent.py): authentication
guard, one `sp.current_user()` call returned as-is, standard handlers. -/
def get_current_user_profile (st : ClientState) (env : SpotifyEnv) :
    JVal × List ApiCall :=
  if (ensureClient st env).1 then
    catchSpotify (do
      let profile ← env.currentUserRes
      pure (profile, [ApiCall.currentUser]))
  else (notAuthDict, [])

/-- Track simplification used by the playlist-preview loop of
`create_playlist` and by the paging loop of `get_all_playlist_items`
(defaults `"Unknown Track"` / `"Unknown Artist"`). -/
def simplifyTrackDefaulted (track : JVal) : Except PyExn JVal := do
  let name ← pyGetD track "name" (.str "Unknown Track")
  let artistsV ← pyGetD track "artists" (.arr [])
  let artistsL ← pyIter artistsV
  let artistNames ← artistsL.mapM (fun a => pyGetD a "name" (.str "Unknown Artist"))
  let uri ← pyGetD track "uri" .null
  let id ← pyGetD track "id" .null
  pure (.obj [("name", name), ("artists", .arr artistNames), ("uri", uri), ("id", id)])

/-- The item loop shared verbatim by `create_playlist` (preview) and
`get_all_playlist_items`: keep an item exactly when `item.get('track')` is
truthy and `track.get('uri')` is truthy, simplifying the kept tracks. -/
def processItems : List JVal → Except PyExn (List JVal)
  | [] => pure []
  | item :: rest => do
    let track ← pyGetD item "track" .null
    if track.truthy then do
      let uri ← pyGetD track "uri" .null
      if uri.truthy then do
        let s ← simplifyTrackDefaulted track
        let rest' ← processItems rest
        pure (s :: rest')
      else processItems rest
    else processItems rest

/-- `track_uris[i:i+100]` slices produced by
`for i in range(0, len(track_uris), 100)`. -/
def chunksOf (n : Nat) (l : List α) : List (List α) :=
  if h : n = 0 ∨ l.isEmpty then [] else (l.take n) :: chunksOf n (l.drop n)
termination_by l.length
decreasing_by
  push_neg at h
  rcases l with _ | ⟨a, t⟩
  · exact absurd rfl h.2
  · simp only [List.length_drop, List.length_cons]
    omega

/-- The batched `playlist_add_items` loop of `create_playlist`; returns the
trace of the add calls it issued. -/
def addChunks (env : SpotifyEnv) (pid : JVal) :
    List (List String) → Except PyExn (List ApiCall)
  | [] => pure []
  | c :: cs => do
    let _ ← env.playlistAddItemsRes pid c
    let tr ← addChunks env pid cs
    pure (ApiCall.playlistAddItems pid c :: tr)

/-- The `fields` argument of the `sp.playlist` detail fetch in
`create_playlist`. -/
def createDetailFields : String := "name,description,external_urls,id,uri,images,tracks.total"

/-- The `fields` argument of the preview `sp.playlist_items` call in
`create_playlist`. -/
def previewFields : String := "items(track(name,artists(name),uri,id))"

/-- The `if track_uris:` guard around the batched add loop. -/
def addAllChunks (env : SpotifyEnv) (pid : JVal) (trackUris : List String) :
    Except PyExn (List ApiCall) :=
  if trackUris.isEmpty then pure []
  else addChunks env pid (chunksOf 100 trackUris)

/-- `playlist_details.get("images", [{}])[0].get("url") if
playlist_details.get("images") else None`. -/
def coverOf (details : JVal) : Except PyExn JVal := do
  let cond ← pyGetD details "images" .null
  if cond.truthy then do
    let imgs ← pyGetD details "images" (.arr [JVal.obj []])
    let first ← pyIndexNat imgs 0
    pyGetD first "url" .null
  else pure JVal.null

/-- The `if playlist_items_preview and 'items' in playlist_items_preview:`
guard around the preview loop. -/
def previewTracksOf (preview : JVal) : Except PyExn (List JVal) :=
  if preview.truthy then do
    let hasItems ← pyContains preview "items"
    if hasItems then do
      let itemsV ← pyIndex preview "items"
      let items ← pyIter itemsV
      processItems items
    else pure []
  else pure []

/-- Body of `SpotifyClient.create_playlist` inside the `try`: fetch the
user id, create an empty private playlist, add the tracks in batches of
100, re-fetch the playlist details and a 5-item preview, and assemble the
enhanced result dictionary. -/
def createPlaylistBody (env : SpotifyEnv) (name : String) (trackUris : List String)
    (description : String) : Except PyExn (JVal × List ApiCall) := do
  let cu ← env.currentUserRes
  let userId ← pyIndex cu "id"
  let playlist ← env.userPlaylistCreateRes userId name false description
  let pid ← pyIndex playlist "id"
  let addTrace ← addAllChunks env pid trackUris
  let details ← env.playlistFetchRes pid createDetailFields
  let preview ← env.playlistItemsRes pid previewFields 5 0
  let cover ← coverOf details
  let tracksPreview ← previewTracksOf preview
  let nm ← pyGetD details "name" .null
  let ds ← pyGetD details "description" .null
  let ex ← pyGetD details "external_urls" .null
  let idv ← pyGetD details "id" .null
  let uriv ← pyGetD details "uri" .null
  let trk ← pyGetD details "tracks" (.obj [])
  let total ← pyGetD trk "total" .null
  pure (.obj [("name", nm), ("description", ds), ("external_urls", ex), ("id", idv),
      ("uri", uriv), ("tracks", .obj [("total", total)]), ("cover_image_url", cover),
      ("tracks_preview", .arr tracksPreview)],
    ApiCall.currentUser :: ApiCall.userPlaylistCreate userId name false description ::
      (addTrace ++ [ApiCall.playlistFetch pid createDetailFields,
        ApiCall.playlistItems pid previewFields 5 0]))

/-- `SpotifyClient.create_playlist` (agent.py). -/
def create_playlist (st : ClientState) (env : SpotifyEnv) (name : String)
    (trackUris : List String) (description : String) : JVal × List ApiCall :=
  if (ensureClient st env).1 then catchSpotify (createPlaylistBody env name trackUris description)
  else (notAuthDict, [])

/-- The `fields` argument of the paging `sp.playlist_items` calls in
`get_all_playlist_items`. -/
def getAllFields : String := "items(track(name,artists(name),uri,id)),next"

/-- The `while True` paging loop of `get_all_playlist_items`, with a fuel
parameter bounding the number of iterations (the Python loop is unbounded;
the theorems below supply enough fuel for the page on which the loop
stops).  Each iteration fetches at `offset` with `limit=100`; a page that
is falsy or lacks `'items'` stops the loop, otherwise its kept items are
appended and a truthy `'next'` field advances `offset` by 100. -/
def getAllLoop (env : SpotifyEnv) (pid : String) :
    Nat → Int → Except PyExn (List JVal × List ApiCall)
  | 0, _ => pure ([], [])
  | fuel + 1, offset => do
    let page ← env.playlistItemsRes (.str pid) getAllFields 100 offset
    if page.truthy then do
      let hasItems ← pyContains page "items"
      if hasItems then do
        let itemsV ← pyIndex page "items"
        let items ← pyIter itemsV
        let kept ← processItems items
        let nxt ← pyGetD page "next" .null
        if nxt.truthy then do
          let (rest, tr) ← getAllLoop env pid fuel (offset + 100)
          pure (kept ++ rest, ApiCall.playlistItems (.str pid) getAllFields 100 offset :: tr)
        else pure (kept, [ApiCall.playlistItems (.str pid) getAllFields 100 offset])
      else pure ([], [ApiCall.playlistItems (.str pid) getAllFields 100 offset])
    else pure ([], [ApiCall.playlistItems (.str pid) getAllFields 100 offset])

/-- `SpotifyClient.get_all_playlist_items` (agent.py): authentication guard,
the paging loop, and the final `{"tracks": all_tracks}` under the standard
exception handlers. -/
def get_all_playlist_items (st : ClientState) (env : SpotifyEnv) (fuel : Nat)
    (pid : String) : JVal × List ApiCall :=
  if (ensureClient st env).1 then
    catchSpotify (do
      let (ts, tr) ← getAllLoop env pid fuel 0
      pure (JVal.obj [("tracks", .arr ts)], tr))
  else (notAuthDict, [])

/-- Python `str.lower()` (ASCII case folding; every action string this
code compares against is ASCII). -/
def pyLower (s : String) : String := String.mk (s.data.map Char.toLower)

/-- `next((d for d in devices['devices'] if d['is_active']), None)`:
lazily scan the device list, returning the first device whose
`d['is_active']` is truthy (later elements are not touched). -/
def findFirstActive : List JVal → Except PyExn (Option JVal)
  | [] => pure none
  | d :: rest => do
    let act ← pyIndex d "is_active"
    if act.truthy then pure (some d) else findFirstActive rest

/-- Python truthiness of the optional `context_uri` parameter: the
`if context_uri:` guards mean a `None` or empty-string context is treated
as absent, so the `start_playback` call gets no `context_uri` argument. -/
def ctxArgOf (contextUri : Option String) : Option String :=
  match contextUri with
  | some s => if s != "" then some s else none
  | none => none

/-- `active_device['id'] if active_device else None`. -/
def activeDeviceId (active : Option JVal) : Except PyExn JVal :=
  match active with
  | some d => if d.truthy then pyIndex d "id" else pure JVal.null
  | none => pure JVal.null

/-- Body of `SpotifyClient.control_playback` (agent.py) inside the `try`:
`result = {"success": True, "action": action}` is built from the original
action string, the action is lowercased, and dispatch happens on the
lowercased value.  For `play`: find an active device; if `active_device['id']`
is falsy, transfer playback to the first listed device (`force_play=False`,
then `time.sleep(1)`) or, with no devices at all, return the
no-devices error; finally `start_playback` on the chosen device. -/
def controlPlaybackBody (env : SpotifyEnv) (action : String)
    (contextUri : Option String) : Except PyExn (JVal × List ApiCall) :=
  let a := pyLower action
  let ctx := ctxArgOf contextUri
  if a == "play" then do
    let devices ← env.devicesRes
    let dlist ← pyIndex devices "devices"
    let dlistL ← pyIter dlist
    let active ← findFirstActive dlistL
    let deviceId ← activeDeviceId active
    if deviceId.truthy then do
      let _ ← env.startPlaybackRes (some deviceId) ctx
      pure (.obj [("success", .bool true), ("action", .str action),
          ("status", .str "Playback started/resumed")],
        [ApiCall.devices, ApiCall.startPlayback (some deviceId) ctx])
    else if dlist.truthy then do
      let d0 ← pyIndexNat dlist 0
      let deviceId2 ← pyIndex d0 "id"
      let _ ← pyIndex d0 "name"
      let _ ← env.transferRes deviceId2 false
      let _ ← env.startPlaybackRes (some deviceId2) ctx
      pure (.obj [("success", .bool true), ("action", .str action),
          ("status", .str "Playback started/resumed")],
        [ApiCall.devices, ApiCall.transferPlayback deviceId2 false, ApiCall.sleep 1,
         ApiCall.startPlayback (some deviceId2) ctx])
    else
      pure (.obj [("error", .str "No available Spotify devices found.")], [ApiCall.devices])
  else if a == "pause" then do
    let _ ← env.pauseRes
    pure (.obj [("success", .bool true), ("action", .str action),
        ("status", .str "Playback paused")], [ApiCall.pausePlayback])
  else if a == "next" then do
    let _ ← env.nextRes
    pure (.obj [("success", .bool true), ("action", .str action),
        ("status", .str "Skipped to next track")], [ApiCall.nextTrack])
  else if a == "previous" then do
    let _ ← env.previousRes
    pure (.obj [("success", .bool true), ("action", .str action),
        ("status", .str "Skipped to previous track")], [ApiCall.previousTrack])
  else
    pure (.obj [("error", .str ("Unknown playback action: " ++ a))], [])

/-- The dedicated exception handlers of `control_playback` (agent.py):
`msg = getattr(e, 'msg', "") or ""`, a 404 whose message mentions
`"No active device found"` and a 403 mentioning `"restricted"` or
`"premium"` get fixed error strings, any other `SpotifyException` the
standard message, any other exception `str(e)`. -/
def catchPlayback (r : Except PyExn (JVal × List ApiCall)) : JVal × List ApiCall :=
  match r with
  | .ok vt => vt
  | .error (.spotifyExc status msg _) =>
    let m := msg.getD ""
    if status == 404 && strContains m "No active device found" then
      (.obj [("error", .str "No active Spotify device found.")], [])
    else if status == 403 && (strContains m "restricted" || strContains m "premium") then
      (.obj [("error", .str "Playback control failed. Requires Premium or restricted.")], [])
    else if m != "" then (.obj [("error", .str ("Spotify API error: " ++ m))], [])
    else (.obj [("error", .str ("Spotify API error code: " ++ toString status))], [])
  | .error e => (.obj [("error", .str (pyExnStr e))], [])

/-- `SpotifyClient.control_playback` (agent.py). -/
def control_playback (st : ClientState) (env : SpotifyEnv) (action : String)
    (contextUri : Option String) : JVal × List ApiCall :=
  if (ensureClient st env).1 then catchPlayback (controlPlaybackBody env action contextUri)
  else (notAuthDict, [])

/-! ## The redundant agent copy (`src/agent/agent_redundant.py`) -/

/-- `SpotifyClient.control_playback` from `agent_redundant.py`: the guard is
just `if not self.sp`, the command is dispatched without lowercasing, the
result carries a `"command"` key and the short statuses
`playing`/`paused`/`skipped`/`previous`, `play` never touches the device
list, and every exception is caught by a single generic handler. -/
def control_playback_redundant (spOk : Bool) (env : SpotifyEnv) (command : String)
    (contextUri : Option String) : JVal × List ApiCall :=
  if !spOk then (notAuthDict, [])
  else
    let ctx := ctxArgOf contextUri
    let body : Except PyExn (JVal × List ApiCall) :=
      if command == "play" then do
        let _ ← env.startPlaybackRes none ctx
        pure (.obj [("success", .bool true), ("command", .str command),
            ("status", .str "playing")], [ApiCall.startPlayback none ctx])
      else if command == "pause" then do
        let _ ← env.pauseRes
        pure (.obj [("success", .bool true), ("command", .str command),
            ("status", .str "paused")], [ApiCall.pausePlayback])
      else if command == "next" then do
        let _ ← env.nextRes
        pure (.obj [("success", .bool true), ("command", .str command),
            ("status", .str "skipped")], [ApiCall.nextTrack])
      else if command == "previous" then do
        let _ ← env.previousRes
        pure (.obj [("success", .bool true), ("command", .str command),
            ("status", .str "previous")], [ApiCall.previousTrack])
      else
        pure (.obj [("error", .str ("Unknown command: " ++ command))], [])
    match body with
    | .ok vt => vt
    | .error e => (.obj [("error", .str (pyExnStr e))], [])

/-! ## The agent (`src/agent/agent.py`, class `SpotifyAgent`) -/

/-- Arguments to a tool call, following the pydantic schemas
`SpotifySearchSchema`, `SpotifyCreatePlaylistSchema`,
`SpotifyPlaybackSchema` (the profile tool takes no arguments). -/
inductive ToolArgs where
  | searchArgs : String → Int → ToolArgs
  | createArgs : String → String → List String → ToolArgs
  | playbackArgs : String → Option String → ToolArgs
  | noArgs : ToolArgs

/-- A `StructuredTool` as declared in `SpotifyAgent._create_tools`: a name,
a description, and the bound client method.  `run` returns `none` only on
an argument shape that the tool's schema rules out. -/
structure STool where
  name : String
  description : String
  run : ClientState → SpotifyEnv → ToolArgs → Option (JVal × List ApiCall)

instance : Inhabited STool := ⟨⟨"", "", fun _ _ _ => none⟩⟩

/-- `SpotifyAgent._create_tools` (agent.py): exactly four structured tools,
each one a direct binding of a `SpotifyClient` method. -/
def create_tools : List STool :=
  [ { name := "spotify_search_tracks"
      description := "Search for tracks on Spotify based on a query string. Returns a list of tracks with details like name, artist, and URI."
      run := fun st env a =>
        match a with
        | .searchArgs q lim => some (search_tracks st env q lim)
        | _ => none }
  , { name := "spotify_create_playlist"
      description := "Creates a new Spotify playlist for the current user with a given name, description, and list of track URIs. Returns details of the created playlist including its name, URL, ID, cover image, and track preview."
      run := fun st env a =>
        match a with
        | .createArgs nm ds uris => some (create_playlist st env nm uris ds)
        | _ => none }
  , { name := "spotify_control_playback"
      description := "Controls Spotify playback. Actions: \x27play\x27, \x27pause\x27, \x27next\x27, \x27previous\x27. \x27play\x27 can optionally take a context_uri (playlist, album, artist URI) to start playing specific content."
      run := fun st env a =>
        match a with
        | .playbackArgs act ctx => some (control_playback st env act ctx)
        | _ => none }
  , { name := "get_current_user_profile"
      description := "Gets the profile information of the currently authenticated Spotify user, like display name and user ID."
      run := fun st env a =>
        match a with
        | .noArgs => some (get_current_user_profile st env)
        | _ => none } ]

mutual
/-- `json.dumps` on an embedded Python value (compact `", "`/`": "`
separators; string escaping and the `indent=2` layout are not reproduced —
the serialised text only feeds the human-readable step explanation, which
no claim inspects). -/
def jsonDumps : JVal → String
  | .null => "null"
  | .bool b => cond b "true" "false"
  | .int n => toString n
  | .str s => "\"" ++ s ++ "\""
  | .arr xs => "[" ++ jsonDumpsList xs ++ "]"
  | .obj kvs => "\x7b" ++ jsonDumpsKVs kvs ++ "\x7d"
def jsonDumpsList : List JVal → String
  | [] => ""
  | [x] => jsonDumps x
  | x :: y :: rest => jsonDumps x ++ ", " ++ jsonDumpsList (y :: rest)
def jsonDumpsKVs : List (String × JVal) → String
  | [] => ""
  | [kv] => "\"" ++ kv.1 ++ "\": " ++ jsonDumps kv.2
  | kv :: kv2 :: rest => "\"" ++ kv.1 ++ "\": " ++ jsonDumps kv.2 ++ ", " ++ jsonDumpsKVs (kv2 :: rest)
end

/-- Python `str()` of an embedded value as used in the f-strings of
`process_request` (containers are approximated by their JSON form; only the
step-explanation text depends on this). -/
def pyStr : JVal → String
  | .null => "None"
  | .bool b => cond b "True" "False"
  | .int n => toString n
  | .str s => s
  | v => jsonDumps v

/-- `str(list(observation.keys()))` as interpolated into the
`Received dictionary` line. -/
def keysRepr (kvs : List (String × JVal)) : String :=
  "[" ++ String.intercalate ", " (kvs.map (fun kv => "\x27" ++ kv.1 ++ "\x27")) ++ "]"

/-- One `(action, observation)` pair of the executor's
`intermediate_steps` (the loop skips entries that are not pairs; every
embedded step is one, so that guard is vacuous here). -/
structure AgentStep where
  tool : String
  toolInput : JVal
  observation : JVal

/-- The executor response `process_request` post-processes: the `output`
text (absent means the `.get` default `"Task completed."` applies) and the
intermediate steps. -/
structure ExecResponse where
  output : Option String
  intermediateSteps : List AgentStep

/-- Accumulator of the step loop in `process_request`: the last recorded
error, the last extracted playlist details, and the explanation lines. -/
structure RelayState where
  lastError : Option JVal
  playlist : Option JVal
  explanation : List String

/-- The observation branch of the loop: a dictionary with a truthy
`"error"` records it as `last_error` and logs an error line; otherwise a
long dictionary logs its keys, a short one its JSON; a non-dictionary logs
its `str`. -/
def stepObsUpdate (lastError : Option JVal) (obs : JVal) : Option JVal × String :=
  match obs with
  | .obj kvs =>
    let errV := (kvs.lookup "error").getD .null
    if errV.truthy then
      (some errV, "Observation: Error - " ++ pyStr errV)
    else if (jsonDumps obs).length > 500 then
      (lastError, "Observation: Received dictionary (keys: " ++ keysRepr kvs ++ ")")
    else (lastError, "Observation: " ++ jsonDumps obs)
  | _ => (lastError, "Observation: " ++ pyStr obs)

/-- The playlist extraction of `process_request`: from a
`spotify_create_playlist` observation, read
`observation.get("external_urls", {}).get("spotify")`; a truthy URL yields
the extracted details dictionary, a falsy one yields nothing. -/
def extractPlaylist (obs : JVal) : Except PyExn (Option JVal) := do
  let ex ← pyGetD obs "external_urls" (.obj [])
  let url ← pyGetD ex "spotify" .null
  if url.truthy then do
    let nm ← pyGetD obs "name" .null
    let ds ← pyGetD obs "description" .null
    let tr ← pyGetD obs "tracks" (.obj [])
    let total ← pyGetD tr "total" .null
    let cov ← pyGetD obs "cover_image_url" .null
    let tp ← pyGetD obs "tracks_preview" .null
    let idv ← pyGetD obs "id" .null
    pure (some (.obj [("name", nm), ("description", ds), ("url", url),
      ("track_count", total), ("cover_image_url", cov), ("tracks_preview", tp),
      ("id", idv)]))
  else pure none

/-- One iteration of the step loop of `process_request` (agent.py,
`for step in intermediate_steps`). -/
def relayStep (st : RelayState) (step : AgentStep) : Except PyExn RelayState := do
  let actionLine := "Action: Called tool \x27" ++ step.tool ++ "\x27 with input: " ++ pyStr step.toolInput
  let (le1, obsLine) := stepObsUpdate st.lastError step.observation
  let expl := st.explanation ++ [actionLine, obsLine]
  match step.observation with
  | .obj kvs =>
    if step.tool == "spotify_create_playlist" && !((kvs.lookup "error").getD .null).truthy then
      match ← extractPlaylist step.observation with
      | some pl => pure { lastError := le1, playlist := some pl, explanation := expl }
      | none =>
        let le2 := match le1 with
          | some v => if v.truthy then some v else some (JVal.str "Playlist created, but failed to get URL.")
          | none => some (JVal.str "Playlist created, but failed to get URL.")
        pure { lastError := le2, playlist := st.playlist, explanation := expl }
    else pure { lastError := le1, playlist := st.playlist, explanation := expl }
  | _ => pure { lastError := le1, playlist := st.playlist, explanation := expl }

/-- `SpotifyAgent.process_request` (agent.py), with the executor invocation
(`self.agent_executor.invoke({"input": user_input})`) supplied as an
oracle: the unauthenticated guard, the step loop, and the three result
shapes, with any exception of the `try` block converted to the
`Unexpected agent error` result. -/
def process_request_agent (spOk : Bool) (execResult : Except PyExn ExecResponse) : JVal :=
  if !spOk then
    .obj [("success", .bool false), ("error", .str "Spotify client not authenticated.")]
  else
    match (do
      let resp ← execResult
      let finalOutput := resp.output.getD "Task completed."
      let rs ← resp.intermediateSteps.foldlM relayStep ⟨none, none, []⟩
      let explanation := String.intercalate "\n" rs.explanation
      let playlistTruthy := match rs.playlist with | some p => p.truthy | none => false
      let lastErrTruthy := match rs.lastError with | some v => v.truthy | none => false
      if playlistTruthy then
        pure (JVal.obj [("success", .bool true), ("type", .str "playlist"),
          ("playlist", rs.playlist.getD .null),
          ("agent_steps_explanation", .str explanation),
          ("raw_output", .str finalOutput)])
      else if lastErrTruthy then
        pure (JVal.obj [("success", .bool false), ("error", rs.lastError.getD .null),
          ("agent_steps_explanation", .str explanation)])
      else
        pure (JVal.obj [("success", .bool true), ("type", .str "generic"),
          ("message", .str finalOutput),
          ("agent_steps_explanation", .str explanation)])
      : Except PyExn JVal) with
    | .ok v => v
    | .error e =>
      .obj [("success", .bool false),
        ("error", .str ("Unexpected agent error: " ++ pyExnStr e))]

/-- `SpotifyAgent._get_temperature_for_task` (agent.py), with the
temperatures kept as exact rationals (0.9, 0.3, 0.7 are all exactly
representable doubles, so no rounding is lost). -/
def get_temperature_for_task (userInput : String) : ℚ :=
  let il := pyLower userInput
  if ["create", "make", "build", "new playlist", "mood", "feel"].any (fun w => strContains il w) then
    9/10
  else if ["analyze", "statistics", "stats", "compare", "top"].any (fun w => strContains il w) then
    3/10
  else if ["recommend", "suggest", "similar to", "like"].any (fun w => strContains il w) then
    7/10
  else 7/10

/-! ## The HTTP server (`src/api/server.py`) -/

/-- Python dictionary update `d[k] = v`: replace in place when the key is
present, append otherwise (insertion order preserved). -/
def assocSet {β : Type} : List (String × β) → String → β → List (String × β)
  | [], k, v => [(k, v)]
  | (k0, v0) :: rest, k, v =>
    if k0 == k then (k0, v) :: rest else (k0, v0) :: assocSet rest k v

/-- Python `del d[k]` (keys of these dictionaries are unique, so filtering
is the deletion of the one entry). -/
def assocErase {β : Type} (l : List (String × β)) (k : String) : List (String × β) :=
  l.filter (fun kv => kv.1 != k)

/-- `d[k] = v` on an embedded dictionary value. -/
def jset (v : JVal) (k : String) (x : JVal) : JVal :=
  match v with
  | .obj kvs => .obj (assocSet kvs k x)
  | w => w

/-- The Flask server-side session: string keys to Python values. -/
abbrev Session := List (String × JVal)

/-- A constructed `SpotifyAgent`, as stored in `agent_instances`.  The
constructor body (SpotifyClient creation, ChatOpenAI, tool and executor
setup) performs no raising operation of its own — `SpotifyClient.__init__`
catches every exception — so construction is modelled as pure record
formation once the keyword arguments are accepted. -/
structure AgentInst where
  openaiApiKey : JVal
  spotifyCredentials : JVal

/-- The global `agent_instances` dictionary (its keys are the
`secrets.token_hex(8)` strings the callback generates). -/
abbrev Instances := List (String × AgentInst)

/-- The keyword parameters accepted by `SpotifyAgent.__init__` in
`src/agent/agent.py`: `openai_api_key` and `spotify_credentials` only. -/
def spotifyAgentInitParams : List String := ["openai_api_key", "spotify_credentials"]

/-- Calling `SpotifyAgent(...)` (agent.py) with keyword arguments: Python
raises `TypeError` for a keyword not in the signature or for a missing
required parameter; otherwise the agent is built. -/
def mkSpotifyAgent (kwargs : List (String × JVal)) : Except PyExn AgentInst :=
  match kwargs.find? (fun kv => !(spotifyAgentInitParams.contains kv.1)) with
  | some kv =>
    .error (.typeError ("__init__() got an unexpected keyword argument \x27" ++ kv.1 ++ "\x27"))
  | none =>
    match kwargs.lookup "openai_api_key", kwargs.lookup "spotify_credentials" with
    | some k, some c => .ok ⟨k, c⟩
    | _, _ => .error (.typeError "__init__() missing required positional arguments")

/-- The values `config.py` reads from the environment. -/
structure Config where
  spotifyClientId : String
  spotifyClientSecret : String
  spotifyRedirectUri : String
  openaiApiKey : String
  spotifyMcpPath : String

/-- A route's response: a `jsonify` body with its HTTP status code, or a
redirect. -/
inductive HttpResp where
  | json : Nat → JVal → HttpResp
  | redirect : String → HttpResp

/-- The agent-recreation expression shared by `/api/status` and
`/api/request`: rebuild the credential blob from the session and call
`SpotifyAgent(..., spotify_mcp_path=config.SPOTIFY_MCP_PATH)`.  The whole
expression sits inside the routes' `try`, so any exception it raises is
the caught one. -/
def recreateAgent (cfg : Config) (session : Session) : Except PyExn AgentInst := do
  let tok ←
    match session.lookup "spotify_token" with
    | some v => Except.ok v
    | none => Except.error (PyExn.keyError "spotify_token")
  let refresh := (session.lookup "spotify_refresh_token").getD (.str "")
  let expiry := (session.lookup "spotify_token_expiry").getD (.int 0)
  mkSpotifyAgent
    [("openai_api_key", .str cfg.openaiApiKey),
     ("spotify_credentials", .obj
       [("client_id", .str cfg.spotifyClientId),
        ("client_secret", .str cfg.spotifyClientSecret),
        ("redirect_uri", .str cfg.spotifyRedirectUri),
        ("token", .str (jsonDumps (.obj
          [("access_token", tok), ("refresh_token", refresh),
           ("expires_at", expiry)])))]),
     ("spotify_mcp_path", .str cfg.spotifyMcpPath)]

/-- `/api/status` (server.py, `get_status`): authenticated sessions whose
agent instance is gone trigger recreation; a recreation failure clears the
session and reports unauthenticated.  (A non-string `agent_id` is never a
key of the dictionary; the application only ever stores `token_hex`
strings there.) -/
def get_status (cfg : Config) (session : Session) (instances : Instances) :
    HttpResp × Session × Instances :=
  if (session.lookup "spotify_token").isSome && (session.lookup "agent_id").isSome then
    let agentId := (session.lookup "agent_id").getD .null
    let present := match agentId with | .str a => (instances.lookup a).isSome | _ => false
    if present then (.json 200 (.obj [("authenticated", .bool true)]), session, instances)
    else
      match recreateAgent cfg session with
      | .ok inst =>
        let insts := match agentId with | .str a => assocSet instances a inst | _ => instances
        (.json 200 (.obj [("authenticated", .bool true)]), session, insts)
      | .error _ => (.json 200 (.obj [("authenticated", .bool false)]), [], instances)
  else (.json 200 (.obj [("authenticated", .bool false)]), session, instances)

/-- Python `==` between an `Optional[str]` (a `request.args.get` result)
and an arbitrary value (a `session.get` result): strings compare by value,
`None` equals only `None`, and a string never equals a non-string. -/
def pyEqStrOpt (a : Option String) (v : JVal) : Bool :=
  match a, v with
  | some s, .str t => s == t
  | none, .null => true
  | _, _ => false

/-- The query parameters the `/callback` route reads. -/
structure CallbackArgs where
  state : Option String
  error : Option String
  code : Option String

/-- `/callback` (server.py): CSRF state check, error and code checks, token
exchange (the `requests.post` + `raise_for_status` + `.json()` chain is the
`tokenPost` oracle; only a `RequestException` is caught by the route),
`expires_at` backfill from `expires_in`, session updates, and creation of a
fresh agent under a fresh id.  `now` is `int(time.time())`; `url_for
('index')` is `/`.  An uncaught exception (the `.error` result) is a Flask
500. -/
def callback (cfg : Config) (session : Session) (args : CallbackArgs)
    (tokenPost : Except PyExn JVal) (now : Int) (freshAgentId : String)
    (instances : Instances) : Except PyExn (HttpResp × Session × Instances) :=
  if !(pyEqStrOpt args.state ((session.lookup "oauth_state").getD .null)) then
    .ok (.json 400 (.obj [("error", .str "State mismatch. Possible CSRF attack.")]),
      session, instances)
  else if (match args.error with | some e => e != "" | none => false) then
    .ok (.json 400 (.obj [("error", .str (args.error.getD ""))]), session, instances)
  else if (match args.code with | some c => c == "" | none => true) then
    .ok (.json 400 (.obj [("error", .str "No authorization code provided")]),
      session, instances)
  else
    match tokenPost with
    | .error (.requestExc m) =>
      .ok (.json 400 (.obj [("error",
        .str ("Error exchanging authorization code: " ++ m))]), session, instances)
    | .error e => .error e
    | .ok tokens => do
      let hasIn ← pyContains tokens "expires_in"
      let tokens2 ←
        if hasIn then do
          let hasAt ← pyContains tokens "expires_at"
          if !hasAt then do
            let ein ← pyIndex tokens "expires_in"
            match ein with
            | .int n => pure (jset tokens "expires_at" (.int (now + n)))
            | _ => Except.error (.typeError "unsupported operand type for +")
          else pure tokens
        else pure tokens
      let accessTok ← pyIndex tokens2 "access_token"
      let refresh ← pyGetD tokens2 "refresh_token" .null
      let expiry ← pyGetD tokens2 "expires_at" (.int 0)
      let session1 := assocSet session "spotify_token" accessTok
      let session2 := assocSet session1 "spotify_refresh_token" refresh
      let session3 := assocSet session2 "spotify_token_expiry" expiry
      let session4 := assocSet session3 "agent_id" (.str freshAgentId)
      let inst ← mkSpotifyAgent
        [("openai_api_key", .str cfg.openaiApiKey),
         ("spotify_credentials", .obj
           [("client_id", .str cfg.spotifyClientId),
            ("client_secret", .str cfg.spotifyClientSecret),
            ("redirect_uri", .str cfg.spotifyRedirectUri),
            ("token", .str (jsonDumps tokens2))])]
      pure (.redirect "/", session4, assocSet instances freshAgentId inst)

/-- `/api/request` (server.py, `process_request`): the 401 guard, then the
agent lookup with its recreation attempt (before any look at the request
body), then the body check, then the invocation of the instance's
`process_request` (the `agentRun` oracle) under the route's final `try`.
An uncaught exception (the `.error` result) is a Flask 500. -/
def route_process_request (cfg : Config) (session : Session) (instances : Instances)
    (body : JVal) (agentRun : AgentInst → JVal → Except PyExn JVal) :
    Except PyExn (HttpResp × Instances) :=
  if (session.lookup "agent_id").isNone || (session.lookup "spotify_token").isNone then
    .ok (.json 401 (.obj [("error", .str "Not authenticated")]), instances)
  else
    let agentId := (session.lookup "agent_id").getD .null
    let step2 : Except HttpResp Instances :=
      match agentId with
      | .str a =>
        if (instances.lookup a).isSome then .ok instances
        else
          match recreateAgent cfg session with
          | .ok inst => .ok (assocSet instances a inst)
          | .error _ => .error (.json 404
              (.obj [("error", .str "Agent not found and could not be recreated")]))
      | _ =>
        match recreateAgent cfg session with
        | .ok _ => .ok instances
        | .error _ => .error (.json 404
            (.obj [("error", .str "Agent not found and could not be recreated")]))
    match step2 with
    | .error resp => .ok (resp, instances)
    | .ok insts => do
      let bad ← (do
        if !body.truthy then pure true
        else do
          let c ← pyContains body "request"
          pure !c : Except PyExn Bool)
      if bad then .ok (.json 400 (.obj [("error", .str "No request provided")]), insts)
      else
        let inst := match agentId with
          | .str a => (insts.lookup a).getD ⟨.null, .null⟩
          | _ => ⟨.null, .null⟩
        match (do
          let req ← pyIndex body "request"
          agentRun inst req : Except PyExn JVal) with
        | .ok res => .ok (.json 200 res, insts)
        | .error e => .ok (.json 500 (.obj [("error",
            .str ("Error processing request: " ++ pyExnStr e))]), insts)

/-- `/api/logout` (server.py): when the session names an agent id that is a
key of `agent_instances`, call its `cleanup` (recorded in the returned
trace) and delete the entry; then clear the session and report success. -/
def logout (session : Session) (instances : Instances) :
    JVal × Session × Instances × List String :=
  match session.lookup "agent_id" with
  | some (.str a) =>
    if (instances.lookup a).isSome then
      (.obj [("success", .bool true)], [], assocErase instances a, [a])
    else (.obj [("success", .bool true)], [], instances, [])
  | _ => (.obj [("success", .bool true)], [], instances, [])


/-- A spotipy oracle on which every call succeeds blandly; specialised
environments below override single fields. -/
def envBase : SpotifyEnv where
  searchRes := fun _ _ => .ok (.obj [("tracks", .obj [("items", .arr [])])])
  currentUserRes := .ok (.obj [("id", .str "user1")])
  userPlaylistCreateRes := fun _ _ _ _ => .ok (.obj [("id", .str "pl1")])
  playlistAddItemsRes := fun _ _ => .ok .null
  playlistFetchRes := fun _ _ => .ok (.obj [("name", .str "P")])
  playlistItemsRes := fun _ _ _ _ => .ok (.obj [("items", .arr [])])
  devicesRes := .ok (.obj [("devices", .arr
    [.obj [("is_active", .bool true), ("id", .str "d1"), ("name", .str "D1")]])])
  transferRes := fun _ _ => .ok .null
  startPlaybackRes := fun _ _ => .ok .null
  pauseRes := .ok .null
  nextRes := .ok .null
  previousRes := .ok .null
  removeItemsRes := fun _ _ => .ok .null
  reauthRes := .ok .null

/-- `envBase` with a single inactive device. -/
def envNoActive : SpotifyEnv :=
  { envBase with devicesRes := .ok (.obj [("devices", .arr
      [.obj [("is_active", .bool false), ("id", .str "d2"), ("name", .str "D2")]])]) }

/-- `envBase` with an empty device list. -/
def envNoDevices : SpotifyEnv :=
  { envBase with devicesRes := .ok (.obj [("devices", .arr [])]) }


/-- The result dictionary carries an `"error"` key mapping to a string. -/
def hasErrorStr (d : JVal) : Prop := ∃ s, pyLookup d "error" = some (.str s)

/-- The enhanced-details dictionary `create_playlist` returns on success. -/
def isCreateShape (d : JVal) : Prop :=
  ∃ nm ds ex idv uriv total cover tp,
    d = .obj [("name", nm), ("description", ds), ("external_urls", ex), ("id", idv),
      ("uri", uriv), ("tracks", .obj [("total", total)]), ("cover_image_url", cover),
      ("tracks_preview", .arr tp)]

/-- A raw playlist item as the API returns it. -/
def mkItem (nm ar uri id : String) : JVal :=
  .obj [("track", .obj [("name", .str nm),
    ("artists", .arr [.obj [("name", .str ar)]]),
    ("uri", .str uri), ("id", .str id)])]

/-- The simplified form `processItems` produces for `mkItem`. -/
def mkSimp (nm ar uri id : String) : JVal :=
  .obj [("name", .str nm), ("artists", .arr [.str ar]),
    ("uri", .str uri), ("id", .str id)]

/-- First page: one item plus a `next` link. -/
def pageOne : JVal :=
  .obj [("items", .arr [mkItem "T1" "A1" "u1" "i1"]), ("next", .str "nexturl")]

/-- Second page: one item, no `next`. -/
def pageTwo : JVal := .obj [("items", .arr [mkItem "T2" "A2" "u2" "i2"])]

/-- A paging oracle: offset 0 returns `pageOne`, any other offset
`pageTwo`. -/
def envPaging : SpotifyEnv :=
  { envBase with playlistItemsRes := fun _ _ _ off =>
      if off == 0 then .ok pageOne else .ok pageTwo }


/-- Total dictionary access for the specification-level step scans:
`d.get(k)` with a `None` default. -/
def jget (v : JVal) (k : String) : JVal := (pyLookup v k).getD .null

/-- The truthy `"error"` value of a dictionary observation, if any. -/
def truthyErrorOf (obs : JVal) : Option JVal :=
  match obs with
  | .obj kvs =>
    let e := (kvs.lookup "error").getD .null
    if e.truthy then some e else none
  | _ => none

/-- `observation.get("external_urls", {}).get("spotify")` as a total
function (the code raises when `external_urls` is a truthy non-dictionary;
the benignity assumption below rules that out). -/
def playlistUrlOf (obs : JVal) : JVal :=
  match pyLookup obs "external_urls" with
  | some v => jget v "spotify"
  | none => .null

/-- A step whose observation is an error-free `spotify_create_playlist`
dictionary. -/
def isCleanCreate (step : AgentStep) : Bool :=
  step.tool == "spotify_create_playlist" &&
  (match step.observation with
   | .obj kvs => !((kvs.lookup "error").getD .null).truthy
   | _ => false)

/-- A clean create step carrying a truthy spotify URL. -/
def isUrlCreate (step : AgentStep) : Bool :=
  isCleanCreate step && (playlistUrlOf step.observation).truthy

/-- A clean create step without a truthy spotify URL. -/
def isUrllessCreate (step : AgentStep) : Bool :=
  isCleanCreate step && !(playlistUrlOf step.observation).truthy

/-- The playlist details the loop extracts from a create observation. -/
def extractSpec (obs : JVal) : JVal :=
  .obj [("name", jget obs "name"), ("description", jget obs "description"),
    ("url", playlistUrlOf obs),
    ("track_count", match pyLookup obs "tracks" with
      | some v => jget v "total"
      | none => .null),
    ("cover_image_url", jget obs "cover_image_url"),
    ("tracks_preview", jget obs "tracks_preview"), ("id", jget obs "id")]

/-- The extraction of the last url-carrying create step of the list, when
one exists (later steps overwrite earlier ones in the loop). -/
def lastUrlCreate : List AgentStep → Option JVal
  | [] => none
  | s :: rest =>
    match lastUrlCreate rest with
    | some p => some p
    | none => if isUrlCreate s then some (extractSpec s.observation) else none

/-- The last truthy `"error"` value observed in the list, when one
exists. -/
def lastTruthyError : List AgentStep → Option JVal
  | [] => none
  | s :: rest =>
    match lastTruthyError rest with
    | some e => some e
    | none => truthyErrorOf s.observation

/-- Some step is a clean create without a URL. -/
def anyUrlless (steps : List AgentStep) : Bool := steps.any isUrllessCreate

/-- The lookups of a create observation that the extraction dereferences
are dictionaries where the code requires it (the only way `relayStep` can
raise). -/
def stepBenign (step : AgentStep) : Bool :=
  !(isCleanCreate step) ||
  ((match pyLookup step.observation "external_urls" with
    | none => true
    | some (.obj _) => true
    | some _ => false) &&
   (!(playlistUrlOf step.observation).truthy ||
    (match pyLookup step.observation "tracks" with
     | none => true
     | some (.obj _) => true
     | some _ => false)))

/-- `last_error or "Playlist created, but failed to get URL."`. -/
def orFallback (le : Option JVal) : Option JVal :=
  match le with
  | some v => if v.truthy then some v
              else some (.str "Playlist created, but failed to get URL.")
  | none => some (.str "Playlist created, but failed to get URL.")

/-- A concrete clean create observation carrying a spotify URL. -/
def c3Obs : JVal := .obj [("name", .str "P"), ("description", .str "d"),
  ("external_urls", .obj [("spotify", .str "https://s/p")]),
  ("tracks", .obj [("total", .int 2)]), ("id", .str "pid")]

/-- A concrete one-step executor trace for the relay theorem. -/
def c3Steps : List AgentStep := [⟨"spotify_create_playlist", .obj [], c3Obs⟩]

theorem exbind_ok (a : α) (f : α → Except ε β) :
    (Except.ok a >>= f) = f a := rfl

theorem exmap_ok (a : α) (f : α → β) :
    (f <$> (Except.ok a : Except ε α)) = Except.ok (f a) := rfl

theorem exmap_err (e : ε) (f : α → β) :
    (f <$> (Except.error e : Except ε α)) = Except.error e := rfl

theorem exbind_err (e : ε) (f : α → Except ε β) :
    ((Except.error e : Except ε α) >>= f) = Except.error e := rfl

/-! ## Helper lemmas -/

theorem exbind_ok_inv {α β ε : Type} {m : Except ε α} {f : α → Except ε β} {b : β}
    (h : (m >>= f) = .ok b) : ∃ a, m = .ok a ∧ f a = .ok b := by
  cases m with
  | ok a => exact ⟨a, rfl, h⟩
  | error e => exact absurd h (by simp [exbind_err])

theorem lookup_cons {β : Type} (k k0 : String) (v0 : β) (rest : List (String × β)) :
    List.lookup k ((k0, v0) :: rest) = if k = k0 then some v0 else List.lookup k rest := by
  by_cases h : k = k0
  · subst h; simp [List.lookup]
  · have hb : (k == k0) = false := beq_eq_false_iff_ne.mpr h
    simp [List.lookup, hb, h]

theorem assocSet_lookup_self {β : Type} (l : List (String × β)) (k : String) (v : β) :
    (assocSet l k v).lookup k = some v := by
  induction l with
  | nil => simp [assocSet, lookup_cons]
  | cons kv rest ih =>
    rcases kv with ⟨k0, v0⟩
    by_cases h : k0 = k
    · simp [assocSet, h, lookup_cons]
    · simp [assocSet, h, lookup_cons, Ne.symm h, ih]

theorem assocSet_lookup_other {β : Type} (l : List (String × β)) (k k2 : String) (v : β)
    (hne : k2 ≠ k) : (assocSet l k v).lookup k2 = l.lookup k2 := by
  induction l with
  | nil =>
    have hb : (k2 == k) = false := beq_eq_false_iff_ne.mpr hne
    simp [assocSet, List.lookup, hb]
  | cons kv rest ih =>
    rcases kv with ⟨k0, v0⟩
    by_cases h : k0 = k
    · subst h
      simp [assocSet, lookup_cons, hne]
    · by_cases h2 : k2 = k0
      · subst h2
        simp [assocSet, h, lookup_cons]
      · simp [assocSet, h, lookup_cons, h2, ih]

theorem assocErase_lookup_self {β : Type} (l : List (String × β)) (k : String) :
    (assocErase l k).lookup k = none := by
  induction l with
  | nil => rfl
  | cons kv rest ih =>
    rcases kv with ⟨k0, v0⟩
    by_cases h : k0 = k
    · subst h
      simpa [assocErase, List.filter_cons] using ih
    · have hb : (k0 != k) = true := bne_iff_ne.mpr h
      simpa [assocErase, List.filter_cons, hb, lookup_cons, Ne.symm h] using ih

theorem assocErase_lookup_other {β : Type} (l : List (String × β)) (k k2 : String)
    (hne : k2 ≠ k) : (assocErase l k).lookup k2 = l.lookup k2 := by
  induction l with
  | nil => rfl
  | cons kv rest ih =>
    rcases kv with ⟨k0, v0⟩
    unfold assocErase at ih
    by_cases h : k0 = k
    · subst h
      simp [assocErase, List.filter_cons, lookup_cons, hne, ih]
    · have hb : (k0 != k) = true := bne_iff_ne.mpr h
      by_cases h2 : k2 = k0
      · subst h2
        simp [assocErase, List.filter_cons, hb, lookup_cons]
      · simp [assocErase, List.filter_cons, hb, lookup_cons, h2, ih]

theorem lookup_any_isSome {β : Type} (l : List (String × β)) (k : String) :
    (l.any (fun kv => kv.1 == k)) = (l.lookup k).isSome := by
  induction l with
  | nil => rfl
  | cons kv rest ih =>
    rcases kv with ⟨k0, v0⟩
    by_cases h : k0 = k
    · subst h
      simp [lookup_cons]
    · have hb : (k0 == k) = false := beq_eq_false_iff_ne.mpr h
      simp [lookup_cons, hb, Ne.symm h, ih]


/-- C10: `/api/logout` always returns `{"success": True}`; afterwards the
session is empty, and when the session's agent id was a key of
`agent_instances` that instance's `cleanup` was called (the trace) and its
entry removed, every entry under any other id being unchanged. -/
theorem logout_spec (session : Session) (instances : Instances) :
    (logout session instances).1 = .obj [("success", .bool true)] ∧
    (logout session instances).2.1 = [] ∧
    (∀ a, session.lookup "agent_id" = some (.str a) →
      (instances.lookup a).isSome = true →
      ((logout session instances).2.2.1.lookup a = none ∧
       (logout session instances).2.2.2 = [a] ∧
       ∀ b, b ≠ a → (logout session instances).2.2.1.lookup b = instances.lookup b)) ∧
    (∀ a, session.lookup "agent_id" = some (.str a) →
      (instances.lookup a).isSome = false →
      (logout session instances).2.2.1 = instances ∧
      (logout session instances).2.2.2 = []) ∧
    (session.lookup "agent_id" = none →
      (logout session instances).2.2.1 = instances ∧
      (logout session instances).2.2.2 = []) := by
  unfold logout
  refine ⟨?_, ?_, ?_, ?_, ?_⟩
  · rcases hs : session.lookup "agent_id" with _ | v
    · rfl
    · cases v <;> first | rfl | (dsimp only; split <;> rfl)
  · rcases hs : session.lookup "agent_id" with _ | v
    · rfl
    · cases v <;> first | rfl | (dsimp only; split <;> rfl)
  · intro a hs hsome
    simp only [hs, hsome, if_true]
    exact ⟨assocErase_lookup_self instances a, by trivial,
      fun b hb => assocErase_lookup_other instances a b hb⟩
  · intro a hs hsome
    simp [hs, hsome]
  · intro hs
    simp [hs]

/-- Concrete instantiation of `logout_spec`: a two-entry instance map and a
session naming the first entry. -/
theorem logout_spec_witness :
    ((logout [("agent_id", .str "a")] [("a", ⟨.null, .null⟩), ("b", ⟨.null, .null⟩)]).2.2.1.lookup "a"
      = none ∧
     (logout [("agent_id", .str "a")] [("a", ⟨.null, .null⟩), ("b", ⟨.null, .null⟩)]).2.2.2 = ["a"] ∧
     (logout [("agent_id", .str "a")] [("a", ⟨.null, .null⟩), ("b", ⟨.null, .null⟩)]).2.2.1.lookup "b"
      = ([("a", (⟨.null, .null⟩ : AgentInst)), ("b", ⟨.null, .null⟩)] : Instances).lookup "b") := by
  obtain ⟨-, -, h3, -, -⟩ :=
    logout_spec [("agent_id", .str "a")] [("a", ⟨.null, .null⟩), ("b", ⟨.null, .null⟩)]
  obtain ⟨ha, htr, hother⟩ := h3 "a" rfl rfl
  exact ⟨ha, htr, hother "b" (by decide)⟩


theorem recreateAgent_always_fails (cfg : Config) (session : Session) :
    ∃ e, recreateAgent cfg session = .error e := by
  unfold recreateAgent
  rcases h : session.lookup "spotify_token" with _ | tv
  · exact ⟨_, rfl⟩
  · exact ⟨_, rfl⟩

/-- C8: the recreation branches pass `spotify_mcp_path` to a constructor
that only accepts `openai_api_key` and `spotify_credentials`, so whenever
an authenticated session names an agent id absent from `agent_instances`,
recreation raises `TypeError`, `/api/status` clears the session and answers
unauthenticated, and `/api/request` answers 404. -/
theorem recreation_mcp_bug (cfg : Config) (session : Session) (instances : Instances)
    (a : String) (tv : JVal) (body : JVal)
    (agentRun : AgentInst → JVal → Except PyExn JVal)
    (htok : session.lookup "spotify_token" = some tv)
    (hid : session.lookup "agent_id" = some (.str a))
    (habs : instances.lookup a = none) :
    (∃ m, recreateAgent cfg session = .error (.typeError m)) ∧
    get_status cfg session instances =
      (.json 200 (.obj [("authenticated", .bool false)]), [], instances) ∧
    route_process_request cfg session instances body agentRun =
      .ok (.json 404 (.obj [("error", .str "Agent not found and could not be recreated")]),
        instances) := by
  have hrec : ∃ m, recreateAgent cfg session = Except.error (.typeError m) := by
    unfold recreateAgent
    rw [htok]
    exact ⟨_, rfl⟩
  obtain ⟨m, hm⟩ := hrec
  refine ⟨⟨m, hm⟩, ?_, ?_⟩
  · unfold get_status
    rw [htok, hid, hm]
    simp [habs]
  · unfold route_process_request
    rw [htok, hid, hm]
    simp [habs]

/-- Concrete instantiation of `recreation_mcp_bug`. -/
theorem recreation_mcp_bug_witness :
    get_status ⟨"cid", "cs", "ru", "ok", "mcp"⟩
      [("spotify_token", .str "t"), ("agent_id", .str "a")] [] =
      (.json 200 (.obj [("authenticated", .bool false)]), [], []) ∧
    route_process_request ⟨"cid", "cs", "ru", "ok", "mcp"⟩
      [("spotify_token", .str "t"), ("agent_id", .str "a")] [] (.obj [])
      (fun _ _ => .ok .null) =
      .ok (.json 404 (.obj [("error", .str "Agent not found and could not be recreated")]),
        []) := by
  obtain ⟨-, h2, h3⟩ := recreation_mcp_bug ⟨"cid", "cs", "ru", "ok", "mcp"⟩
    [("spotify_token", .str "t"), ("agent_id", .str "a")] [] "a" (.str "t") (.obj [])
    (fun _ _ => .ok .null) rfl rfl rfl
  exact ⟨h2, h3⟩


theorem mkSpotifyAgent_two_ok (k c : JVal) :
    mkSpotifyAgent [("openai_api_key", k), ("spotify_credentials", c)] = .ok ⟨k, c⟩ := rfl

/-- C5: after a successful token exchange in `/callback` (matching state, no
error parameter, a non-empty code, token endpoint `.ok`, a token payload
with `access_token`, `refresh_token` and `expires_in` but no `expires_at`),
the session holds the access token, the refresh token, the expiry computed
as `now + expires_in`, and the fresh agent id, and `agent_instances` holds
a new agent under that id. -/
theorem callback_success_spec (cfg : Config) (session : Session) (args : CallbackArgs)
    (tokens : List (String × JVal)) (now : Int) (fresh : String) (instances : Instances)
    (accessTok refreshTok : JVal) (n : Int) (c : String)
    (hstate : pyEqStrOpt args.state ((session.lookup "oauth_state").getD .null) = true)
    (herr : args.error = none)
    (hcode : args.code = some c) (hc : c ≠ "")
    (hat : tokens.lookup "access_token" = some accessTok)
    (hin : tokens.lookup "expires_in" = some (.int n))
    (hnoat : tokens.lookup "expires_at" = none)
    (hrt : tokens.lookup "refresh_token" = some refreshTok) :
    ∃ sess2 insts2,
      callback cfg session args (.ok (.obj tokens)) now fresh instances =
        .ok (.redirect "/", sess2, insts2) ∧
      sess2.lookup "spotify_token" = some accessTok ∧
      sess2.lookup "spotify_refresh_token" = some refreshTok ∧
      sess2.lookup "spotify_token_expiry" = some (.int (now + n)) ∧
      sess2.lookup "agent_id" = some (.str fresh) ∧
      ∃ inst : AgentInst, insts2.lookup fresh = some inst ∧
        inst.openaiApiKey = .str cfg.openaiApiKey := by
  have hany_in : (tokens.any (fun kv => kv.1 == "expires_in")) = true := by
    rw [lookup_any_isSome, hin]; rfl
  have hany_at : (tokens.any (fun kv => kv.1 == "expires_at")) = false := by
    rw [lookup_any_isSome, hnoat]; rfl
  have hat2 : (assocSet tokens "expires_at" (.int (now + n))).lookup "access_token"
      = some accessTok := by
    rw [assocSet_lookup_other tokens "expires_at" "access_token" _ (by decide), hat]
  have hrt2 : (assocSet tokens "expires_at" (.int (now + n))).lookup "refresh_token"
      = some refreshTok := by
    rw [assocSet_lookup_other tokens "expires_at" "refresh_token" _ (by decide), hrt]
  have hexp2 : (assocSet tokens "expires_at" (.int (now + n))).lookup "expires_at"
      = some (.int (now + n)) := assocSet_lookup_self tokens "expires_at" _
  have hcb : (c == "") = false := beq_eq_false_iff_ne.mpr hc
  refine ⟨assocSet (assocSet (assocSet (assocSet session "spotify_token" accessTok)
      "spotify_refresh_token" refreshTok) "spotify_token_expiry" (.int (now + n)))
      "agent_id" (.str fresh),
    assocSet instances fresh ⟨.str cfg.openaiApiKey, .obj
      [("client_id", .str cfg.spotifyClientId),
       ("client_secret", .str cfg.spotifyClientSecret),
       ("redirect_uri", .str cfg.spotifyRedirectUri),
       ("token", .str (jsonDumps (.obj (assocSet tokens "expires_at"
          (.int (now + n))))))]⟩,
    ?_, ?_, ?_, ?_, ?_, ?_⟩
  · unfold callback
    rw [hstate, herr, hcode]
    simp [pyContains, hany_in, hany_at, pyIndex, hin, jset, pyGetD, hat2, hrt2, hexp2,
      mkSpotifyAgent_two_ok, hcb, exbind_ok]
  · rw [assocSet_lookup_other _ _ _ _ (by decide),
      assocSet_lookup_other _ _ _ _ (by decide),
      assocSet_lookup_other _ _ _ _ (by decide),
      assocSet_lookup_self]
  · rw [assocSet_lookup_other _ _ _ _ (by decide),
      assocSet_lookup_other _ _ _ _ (by decide),
      assocSet_lookup_self]
  · rw [assocSet_lookup_other _ _ _ _ (by decide), assocSet_lookup_self]
  · rw [assocSet_lookup_self]
  · exact ⟨_, assocSet_lookup_self instances fresh _, rfl⟩

/-- Concrete instantiation of `callback_success_spec`. -/
theorem callback_success_spec_witness :
    ∃ sess2 insts2,
      callback ⟨"cid", "cs", "ru", "okey", "mcp"⟩ [("oauth_state", .str "st")]
        ⟨some "st", none, some "code1"⟩
        (.ok (.obj [("access_token", .str "AT"), ("refresh_token", .str "RT"),
          ("expires_in", .int 3600)])) 1000 "agent1" [] =
        .ok (.redirect "/", sess2, insts2) ∧
      sess2.lookup "spotify_token" = some (.str "AT") ∧
      sess2.lookup "spotify_refresh_token" = some (.str "RT") ∧
      sess2.lookup "spotify_token_expiry" = some (.int (1000 + 3600)) ∧
      sess2.lookup "agent_id" = some (.str "agent1") ∧
      ∃ inst : AgentInst, insts2.lookup "agent1" = some inst ∧
        inst.openaiApiKey = .str "okey" :=
  callback_success_spec ⟨"cid", "cs", "ru", "okey", "mcp"⟩ [("oauth_state", .str "st")]
    ⟨some "st", none, some "code1"⟩
    [("access_token", .str "AT"), ("refresh_token", .str "RT"), ("expires_in", .int 3600)]
    1000 "agent1" [] (.str "AT") (.str "RT") 3600 "code1"
    (by decide) rfl rfl (by decide) rfl rfl rfl rfl


/-- C7 counterexample: with an authenticated session whose agent id is
absent from `agent_instances` and a request body lacking the `request`
field, the route answers 404 (the recreation attempt, which precedes the
body check, fails), not the 400 the claim predicts. -/
theorem route_request_404_before_400 :
    route_process_request ⟨"cid", "cs", "ru", "okey", "mcp"⟩
      [("agent_id", .str "a"), ("spotify_token", .str "t")] [] (.obj [])
      (fun _ _ => .ok .null) =
    .ok (.json 404 (.obj [("error", .str "Agent not found and could not be recreated")]),
      []) := rfl

/-- C7 (amended): for every POST to `/api/request`: a session lacking
`agent_id` or `spotify_token` gets 401 `{"error": "Not authenticated"}`
with no agent invoked (the result is the same for every `agentRun`); when
the session's agent id is absent from `agent_instances`, the recreation
attempt happens before the body is read and always fails, giving 404; when
the agent is present and the body is falsy or lacks a `request` field, the
response is 400; when the agent is present and the body has a `request`
field, the route returns the JSON result of invoking the instance's
`process_request` on it. -/
theorem route_process_request_spec (cfg : Config) (session : Session)
    (instances : Instances) (body : JVal)
    (agentRun : AgentInst → JVal → Except PyExn JVal) :
    (((session.lookup "agent_id").isNone || (session.lookup "spotify_token").isNone) = true →
      route_process_request cfg session instances body agentRun =
        .ok (.json 401 (.obj [("error", .str "Not authenticated")]), instances)) ∧
    (∀ a tv, session.lookup "agent_id" = some (.str a) →
      session.lookup "spotify_token" = some tv →
      instances.lookup a = none →
      route_process_request cfg session instances body agentRun =
        .ok (.json 404 (.obj [("error", .str "Agent not found and could not be recreated")]),
          instances)) ∧
    (∀ a tv inst, session.lookup "agent_id" = some (.str a) →
      session.lookup "spotify_token" = some tv →
      instances.lookup a = some inst →
      ∀ kvs, body = .obj kvs → kvs.lookup "request" = none →
      route_process_request cfg session instances body agentRun =
        .ok (.json 400 (.obj [("error", .str "No request provided")]), instances)) ∧
    (∀ a tv inst, session.lookup "agent_id" = some (.str a) →
      session.lookup "spotify_token" = some tv →
      instances.lookup a = some inst →
      ∀ kvs req res, body = .obj kvs → kvs.lookup "request" = some req →
      agentRun inst req = .ok res →
      route_process_request cfg session instances body agentRun =
        .ok (.json 200 res, instances)) := by
  refine ⟨?_, ?_, ?_, ?_⟩
  · intro hcond
    unfold route_process_request
    simp [hcond]
  · intro a tv hid htok habs
    obtain ⟨e, he⟩ := recreateAgent_always_fails cfg session
    unfold route_process_request
    rw [hid, htok, he]
    simp [habs]
  · intro a tv inst hid htok hpres kvs hbody hreq
    unfold route_process_request
    rw [hid, htok, hbody]
    have hany : (kvs.any (fun kv => kv.1 == "request")) = false := by
      rw [lookup_any_isSome, hreq]; rfl
    by_cases hk : kvs = []
    · subst hk
      simp [hpres, pyContains, JVal.truthy]
    · have ht : (JVal.obj kvs).truthy = true := by
        simp [JVal.truthy, List.isEmpty_iff, hk]
      simp [hpres, pyContains, ht, hany, exbind_ok]
  · intro a tv inst hid htok hpres kvs req res hbody hreq hrun
    unfold route_process_request
    rw [hid, htok, hbody]
    have hk : kvs ≠ [] := by
      intro hk
      subst hk
      simp at hreq
    have ht : (JVal.obj kvs).truthy = true := by
      simp [JVal.truthy, List.isEmpty_iff, hk]
    have hany : (kvs.any (fun kv => kv.1 == "request")) = true := by
      rw [lookup_any_isSome, hreq]; rfl
    simp [hpres, pyContains, ht, hany, exbind_ok, pyIndex, hreq, hrun]

/-- Concrete instantiation of `route_process_request_spec` on its 401, 400
and 200 branches. -/
theorem route_process_request_spec_witness :
    route_process_request ⟨"cid", "cs", "ru", "okey", "mcp"⟩ [] []
      (.obj []) (fun _ _ => .ok .null) =
      .ok (.json 401 (.obj [("error", .str "Not authenticated")]), []) ∧
    route_process_request ⟨"cid", "cs", "ru", "okey", "mcp"⟩
      [("agent_id", .str "a"), ("spotify_token", .str "t")] [("a", ⟨.null, .null⟩)]
      (.obj [("x", .null)]) (fun _ _ => .ok .null) =
      .ok (.json 400 (.obj [("error", .str "No request provided")]),
        [("a", ⟨.null, .null⟩)]) ∧
    route_process_request ⟨"cid", "cs", "ru", "okey", "mcp"⟩
      [("agent_id", .str "a"), ("spotify_token", .str "t")] [("a", ⟨.null, .null⟩)]
      (.obj [("request", .str "hi")]) (fun _ _ => .ok (.str "resp")) =
      .ok (.json 200 (.str "resp"), [("a", ⟨.null, .null⟩)]) := by
  refine ⟨?_, ?_, ?_⟩
  · exact (route_process_request_spec ⟨"cid", "cs", "ru", "okey", "mcp"⟩ [] []
      (.obj []) (fun _ _ => .ok .null)).1 rfl
  · exact (route_process_request_spec ⟨"cid", "cs", "ru", "okey", "mcp"⟩
      [("agent_id", .str "a"), ("spotify_token", .str "t")] [("a", ⟨.null, .null⟩)]
      (.obj [("x", .null)]) (fun _ _ => .ok .null)).2.2.1 "a" (.str "t")
      ⟨.null, .null⟩ rfl rfl rfl [("x", .null)] rfl rfl
  · exact (route_process_request_spec ⟨"cid", "cs", "ru", "okey", "mcp"⟩
      [("agent_id", .str "a"), ("spotify_token", .str "t")] [("a", ⟨.null, .null⟩)]
      (.obj [("request", .str "hi")]) (fun _ _ => .ok (.str "resp"))).2.2.2 "a"
      (.str "t") ⟨.null, .null⟩ rfl rfl rfl [("request", .str "hi")] (.str "hi")
      (.str "resp") rfl rfl rfl


/-- C4: the manifest is exactly the four named tools, each one a direct
pass-through to the corresponding `SpotifyClient` method. -/
theorem tool_manifest_fixed :
    create_tools.map (fun t => t.name) =
      ["spotify_search_tracks", "spotify_create_playlist", "spotify_control_playback",
       "get_current_user_profile"] ∧
    (∀ st env q lim, (create_tools.getD 0 default).run st env (.searchArgs q lim) =
      some (search_tracks st env q lim)) ∧
    (∀ st env nm ds uris, (create_tools.getD 1 default).run st env (.createArgs nm ds uris) =
      some (create_playlist st env nm uris ds)) ∧
    (∀ st env act ctx, (create_tools.getD 2 default).run st env (.playbackArgs act ctx) =
      some (control_playback st env act ctx)) ∧
    (∀ st env, (create_tools.getD 3 default).run st env .noArgs =
      some (get_current_user_profile st env)) ∧
    create_tools.length = 4 :=
  ⟨rfl, fun _ _ _ _ => rfl, fun _ _ _ _ _ => rfl, fun _ _ _ _ => rfl,
   fun _ _ => rfl, rfl⟩

theorem expure_eq_ok (a : α) : (pure a : Except ε α) = Except.ok a := rfl

theorem catchPlayback_ok (vt : JVal × List ApiCall) :
    catchPlayback (Except.ok vt) = vt := rfl

theorem catchPlayback_pure (vt : JVal × List ApiCall) : catchPlayback (pure vt) = vt := rfl

/-- C6: for the `play` action with an authenticated client: an active
device (with a truthy id) gets `start_playback` directly; with no active
device but a non-empty device list, playback is transferred to the first
listed device (then the 1-second sleep) before `start_playback`; with no
devices at all the call reports the no-devices error and issues no
`start_playback`. -/
theorem control_playback_play_devices (st : ClientState) (env : SpotifyEnv)
    (ctx : Option String) (ds : List JVal)
    (hauth : (ensureClient st env).1 = true)
    (hdev : env.devicesRes = .ok (.obj [("devices", .arr ds)])) :
    (∀ d did u, findFirstActive ds = .ok (some d) → d.truthy = true →
      pyIndex d "id" = .ok did → did.truthy = true →
      env.startPlaybackRes (some did) (ctxArgOf ctx) = .ok u →
      control_playback st env "play" ctx =
        (.obj [("success", .bool true), ("action", .str "play"),
          ("status", .str "Playback started/resumed")],
         [ApiCall.devices, ApiCall.startPlayback (some did) (ctxArgOf ctx)])) ∧
    (∀ d0 rest did0 nm0 u1 u2, ds = d0 :: rest →
      findFirstActive ds = .ok none →
      pyIndex d0 "id" = .ok did0 → did0.truthy = true → pyIndex d0 "name" = .ok nm0 →
      env.transferRes did0 false = .ok u1 →
      env.startPlaybackRes (some did0) (ctxArgOf ctx) = .ok u2 →
      control_playback st env "play" ctx =
        (.obj [("success", .bool true), ("action", .str "play"),
          ("status", .str "Playback started/resumed")],
         [ApiCall.devices, ApiCall.transferPlayback did0 false, ApiCall.sleep 1,
          ApiCall.startPlayback (some did0) (ctxArgOf ctx)])) ∧
    (ds = [] →
      control_playback st env "play" ctx =
        (.obj [("error", .str "No available Spotify devices found.")], [ApiCall.devices]) ∧
      ∀ dev c2, ApiCall.startPlayback dev c2 ∉ (control_playback st env "play" ctx).2) := by
  have hp : (pyLower "play" == "play") = true := rfl
  refine ⟨?_, ?_, ?_⟩
  · intro d did u hfa hd hdid hdt hstart
    unfold control_playback controlPlaybackBody
    simp [hauth, hp, hdev, exbind_ok, exmap_ok, pyIter, hfa, hd, hdid, hdt, hstart,
      catchPlayback, activeDeviceId,
      show pyIndex (JVal.obj [("devices", JVal.arr ds)]) "devices" =
        .ok (.arr ds) from rfl]
  · intro d0 rest did0 nm0 u1 u2 hds hfa hdid0 hdt0 hnm0 htrans hstart
    subst hds
    unfold control_playback controlPlaybackBody
    simp [hauth, hp, hdev, exbind_ok, exmap_ok, pyIter, hfa, JVal.truthy, pyIndexNat,
      hdid0, hnm0, htrans, hstart, catchPlayback, activeDeviceId,
      show pyIndex (JVal.obj [("devices", JVal.arr (d0 :: rest))]) "devices" =
        .ok (.arr (d0 :: rest)) from rfl]
  · intro hds
    subst hds
    unfold control_playback controlPlaybackBody
    constructor
    · simp [hauth, hp, hdev, exbind_ok, exmap_ok, pyIter, findFirstActive, JVal.truthy,
        catchPlayback_pure, catchPlayback_ok, activeDeviceId, expure_eq_ok,
        show pyIndex (JVal.obj [("devices", JVal.arr [])]) "devices" =
          .ok (.arr []) from rfl]
    · intro dev c2
      simp [hauth, hp, hdev, exbind_ok, exmap_ok, pyIter, findFirstActive, JVal.truthy,
        catchPlayback_pure, catchPlayback_ok, activeDeviceId, expure_eq_ok,
        show pyIndex (JVal.obj [("devices", JVal.arr [])]) "devices" =
          .ok (.arr []) from rfl]

/-- Concrete instantiation of `control_playback_play_devices` on its three
device configurations. -/
theorem control_playback_play_devices_witness :
    control_playback ⟨true, true⟩ envBase "play" none =
      (.obj [("success", .bool true), ("action", .str "play"),
        ("status", .str "Playback started/resumed")],
       [ApiCall.devices, ApiCall.startPlayback (some (.str "d1")) none]) ∧
    control_playback ⟨true, true⟩ envNoActive "play" none =
      (.obj [("success", .bool true), ("action", .str "play"),
        ("status", .str "Playback started/resumed")],
       [ApiCall.devices, ApiCall.transferPlayback (.str "d2") false, ApiCall.sleep 1,
        ApiCall.startPlayback (some (.str "d2")) none]) ∧
    (control_playback ⟨true, true⟩ envNoDevices "play" none =
      (.obj [("error", .str "No available Spotify devices found.")], [ApiCall.devices]) ∧
     ∀ dev c2, ApiCall.startPlayback dev c2 ∉
       (control_playback ⟨true, true⟩ envNoDevices "play" none).2) := by
  refine ⟨?_, ?_, ?_⟩
  · exact (control_playback_play_devices ⟨true, true⟩ envBase none
      [.obj [("is_active", .bool true), ("id", .str "d1"), ("name", .str "D1")]]
      rfl rfl).1
      (.obj [("is_active", .bool true), ("id", .str "d1"), ("name", .str "D1")])
      (.str "d1") .null rfl rfl rfl rfl rfl
  · exact (control_playback_play_devices ⟨true, true⟩ envNoActive none
      [.obj [("is_active", .bool false), ("id", .str "d2"), ("name", .str "D2")]]
      rfl rfl).2.1
      (.obj [("is_active", .bool false), ("id", .str "d2"), ("name", .str "D2")])
      [] (.str "d2") (.str "D2") .null .null rfl rfl rfl rfl rfl rfl rfl
  · exact (control_playback_play_devices ⟨true, true⟩ envNoDevices none [] rfl rfl).2.2 rfl


/-- C2 counterexample: the two copies disagree already on the action string
`"Pause"`: `agent.py` lowercases before dispatching and pauses
successfully, while `agent_redundant.py` dispatches on the raw string and
reports an unknown command. -/
theorem control_playback_copies_disagree :
    (control_playback ⟨true, true⟩ envBase "Pause" none).1 =
      .obj [("success", .bool true), ("action", .str "Pause"),
        ("status", .str "Playback paused")] ∧
    (control_playback_redundant true envBase "Pause" none).1 =
      .obj [("error", .str "Unknown command: Pause")] := ⟨rfl, rfl⟩

/-- C2 (amended): the copies agree only up to lowercasing: on an
environment where the playback calls succeed and an active device with a
truthy id exists, `agent.py`'s `control_playback` on `act` and
`agent_redundant.py`'s on `act.lower()` have the same success flag and the
same recognised/unknown classification, and the recognised set is exactly
`play`/`pause`/`next`/`previous` after lowercasing. -/
theorem control_playback_copies_equiv (st : ClientState) (env : SpotifyEnv)
    (act : String) (ctx : Option String) (ds : List JVal)
    (d did sres pres nres vres : JVal)
    (hsp : st.sp = true)
    (hdev : env.devicesRes = .ok (.obj [("devices", .arr ds)]))
    (hfa : findFirstActive ds = .ok (some d)) (hd : d.truthy = true)
    (hdid : pyIndex d "id" = .ok did) (hdt : did.truthy = true)
    (hstart : ∀ dv c, env.startPlaybackRes dv c = .ok sres)
    (hpause : env.pauseRes = .ok pres)
    (hnext : env.nextRes = .ok nres)
    (hprev : env.previousRes = .ok vres) :
    (pyLookup (control_playback st env act ctx).1 "success" = some (.bool true) ↔
      pyLookup (control_playback_redundant true env (pyLower act) ctx).1 "success"
        = some (.bool true)) ∧
    ((pyLookup (control_playback st env act ctx).1 "error").isSome ↔
      (pyLookup (control_playback_redundant true env (pyLower act) ctx).1 "error").isSome) ∧
    (pyLookup (control_playback st env act ctx).1 "success" = some (.bool true) ↔
      pyLower act ∈ (["play", "pause", "next", "previous"] : List String)) := by
  have hauth : (ensureClient st env).1 = true := by simp [ensureClient, hsp]
  unfold control_playback controlPlaybackBody control_playback_redundant
  by_cases h1 : pyLower act = "play"
  · simp [hauth, h1, hdev, exbind_ok, exmap_ok, pyIter, hfa, hd, hdid, hdt, hstart,
      catchPlayback, activeDeviceId, pyLookup, List.lookup,
      show pyIndex (JVal.obj [("devices", JVal.arr ds)]) "devices" =
        .ok (.arr ds) from rfl]
  · have hb1 : (pyLower act == "play") = false := beq_eq_false_iff_ne.mpr h1
    by_cases h2 : pyLower act = "pause"
    · simp [hauth, h2, hpause, exbind_ok, exmap_ok, catchPlayback, pyLookup, List.lookup]
    · have hb2 : (pyLower act == "pause") = false := beq_eq_false_iff_ne.mpr h2
      by_cases h3 : pyLower act = "next"
      · simp [hauth, h3, hnext, exbind_ok, exmap_ok, catchPlayback, pyLookup, List.lookup]
      · have hb3 : (pyLower act == "next") = false := beq_eq_false_iff_ne.mpr h3
        by_cases h4 : pyLower act = "previous"
        · simp [hauth, h4, hprev, exbind_ok, exmap_ok, catchPlayback, pyLookup,
            List.lookup]
        · have hb4 : (pyLower act == "previous") = false := beq_eq_false_iff_ne.mpr h4
          simp [hauth, hb1, hb2, hb3, hb4, catchPlayback_pure, catchPlayback_ok,
            expure_eq_ok, pyLookup, List.lookup, h1, h2, h3, h4]

/-- Concrete instantiation of `control_playback_copies_equiv` at the
mixed-case action `"Play"`. -/
theorem control_playback_copies_equiv_witness :
    (pyLookup (control_playback ⟨true, true⟩ envBase "Play" none).1 "success"
        = some (.bool true) ↔
      pyLookup (control_playback_redundant true envBase (pyLower "Play") none).1 "success"
        = some (.bool true)) ∧
    ((pyLookup (control_playback ⟨true, true⟩ envBase "Play" none).1 "error").isSome ↔
      (pyLookup (control_playback_redundant true envBase (pyLower "Play") none).1
        "error").isSome) ∧
    (pyLookup (control_playback ⟨true, true⟩ envBase "Play" none).1 "success"
        = some (.bool true) ↔
      pyLower "Play" ∈ (["play", "pause", "next", "previous"] : List String)) :=
  control_playback_copies_equiv ⟨true, true⟩ envBase "Play" none
    [.obj [("is_active", .bool true), ("id", .str "d1"), ("name", .str "D1")]]
    (.obj [("is_active", .bool true), ("id", .str "d1"), ("name", .str "D1")])
    (.str "d1") .null .null .null .null
    rfl rfl rfl rfl rfl rfl (fun _ _ => rfl) rfl rfl rfl

theorem exmap_ok_inv {α β ε : Type} {m : Except ε α} {f : α → β} {b : β}
    (h : (f <$> m) = .ok b) : ∃ a, m = .ok a ∧ f a = b := by
  cases m with
  | ok a =>
    refine ⟨a, rfl, ?_⟩
    rw [exmap_ok] at h
    exact (Except.ok.injEq _ _).mp h
  | error e => exact absurd h (by simp [exmap_err])

theorem catchSpotify_ok (vt : JVal × List ApiCall) : catchSpotify (Except.ok vt) = vt := rfl

theorem catchSpotify_error_shape (e : PyExn) :
    hasErrorStr (catchSpotify (.error e)).1 := by
  cases e <;> exact ⟨_, rfl⟩

theorem catchPlayback_error_shape (e : PyExn) :
    hasErrorStr (catchPlayback (.error e)).1 := by
  cases e with
  | spotifyExc status msg rsn =>
    unfold catchPlayback
    dsimp only
    split_ifs <;> exact ⟨_, rfl⟩
  | requestExc m => exact ⟨_, rfl⟩
  | keyError m => exact ⟨_, rfl⟩
  | typeError m => exact ⟨_, rfl⟩
  | indexError m => exact ⟨_, rfl⟩
  | attributeError m => exact ⟨_, rfl⟩
  | other m => exact ⟨_, rfl⟩

theorem searchBody_ok_shape (env : SpotifyEnv) (q : String) (lim : Int)
    {v : JVal} {tr : List ApiCall} (h : searchBody env q lim = .ok (v, tr)) :
    ∃ ts, v = .obj [("tracks", .arr ts)] := by
  unfold searchBody at h
  obtain ⟨results, h1, h⟩ := exbind_ok_inv h
  obtain ⟨tracksV, h2, h⟩ := exbind_ok_inv h
  obtain ⟨itemsV, h3, h⟩ := exbind_ok_inv h
  obtain ⟨simplified, h4, h⟩ := exbind_ok_inv h
  rw [expure_eq_ok, Except.ok.injEq, Prod.mk.injEq] at h
  exact ⟨simplified, h.1.symm⟩

theorem createPlaylistBody_ok_shape (env : SpotifyEnv) (nm : String)
    (uris : List String) (desc : String) {v : JVal} {tr : List ApiCall}
    (h : createPlaylistBody env nm uris desc = .ok (v, tr)) : isCreateShape v := by
  unfold createPlaylistBody at h
  obtain ⟨cu, h1, h⟩ := exbind_ok_inv h
  obtain ⟨userId, h2, h⟩ := exbind_ok_inv h
  obtain ⟨playlist, h3, h⟩ := exbind_ok_inv h
  obtain ⟨pid, h4, h⟩ := exbind_ok_inv h
  obtain ⟨addTrace, h5, h⟩ := exbind_ok_inv h
  obtain ⟨details, h6, h⟩ := exbind_ok_inv h
  obtain ⟨preview, h7, h⟩ := exbind_ok_inv h
  obtain ⟨cover, h8, h⟩ := exbind_ok_inv h
  obtain ⟨tp, h9, h⟩ := exbind_ok_inv h
  obtain ⟨nmv, h10, h⟩ := exbind_ok_inv h
  obtain ⟨dsv, h11, h⟩ := exbind_ok_inv h
  obtain ⟨exv, h12, h⟩ := exbind_ok_inv h
  obtain ⟨idv, h13, h⟩ := exbind_ok_inv h
  obtain ⟨uriv, h14, h⟩ := exbind_ok_inv h
  obtain ⟨trk, h15, h⟩ := exbind_ok_inv h
  obtain ⟨total, h16, h⟩ := exbind_ok_inv h
  rw [expure_eq_ok, Except.ok.injEq, Prod.mk.injEq] at h
  exact ⟨nmv, dsv, exv, idv, uriv, total, cover, tp, h.1.symm⟩

theorem controlPlaybackBody_ok_shape (env : SpotifyEnv) (act : String)
    (ctx : Option String) {v : JVal} {tr : List ApiCall}
    (h : controlPlaybackBody env act ctx = .ok (v, tr)) :
    (∃ s, v = .obj [("success", .bool true), ("action", .str act), ("status", .str s)]) ∨
    hasErrorStr v := by
  unfold controlPlaybackBody at h
  by_cases hplay : (pyLower act == "play") = true
  · rw [if_pos hplay] at h
    obtain ⟨devices, h1, h⟩ := exbind_ok_inv h
    obtain ⟨dlist, h2, h⟩ := exbind_ok_inv h
    obtain ⟨dlistL, h3, h⟩ := exbind_ok_inv h
    obtain ⟨active, h4, h⟩ := exbind_ok_inv h
    obtain ⟨deviceId, h5, h⟩ := exbind_ok_inv h
    by_cases h6 : deviceId.truthy = true
    · rw [if_pos h6] at h
      obtain ⟨u, h7, h⟩ := exmap_ok_inv h
      rw [Prod.mk.injEq] at h
      exact .inl ⟨_, h.1.symm⟩
    · rw [if_neg h6] at h
      by_cases h7 : dlist.truthy = true
      · rw [if_pos h7] at h
        obtain ⟨d0, h8, h⟩ := exbind_ok_inv h
        obtain ⟨did2, h9, h⟩ := exbind_ok_inv h
        obtain ⟨nm0, h10, h⟩ := exbind_ok_inv h
        obtain ⟨u1, h11, h⟩ := exbind_ok_inv h
        obtain ⟨u2, h12, h⟩ := exmap_ok_inv h
        rw [Prod.mk.injEq] at h
        exact .inl ⟨_, h.1.symm⟩
      · rw [if_neg h7, expure_eq_ok, Except.ok.injEq, Prod.mk.injEq] at h
        exact .inr ⟨_, by rw [← h.1]; rfl⟩
  · rw [if_neg hplay] at h
    by_cases hpause : (pyLower act == "pause") = true
    · rw [if_pos hpause] at h
      obtain ⟨u, h1, h⟩ := exmap_ok_inv h
      rw [Prod.mk.injEq] at h
      exact .inl ⟨_, h.1.symm⟩
    · rw [if_neg hpause] at h
      by_cases hnext : (pyLower act == "next") = true
      · rw [if_pos hnext] at h
        obtain ⟨u, h1, h⟩ := exmap_ok_inv h
        rw [Prod.mk.injEq] at h
        exact .inl ⟨_, h.1.symm⟩
      · rw [if_neg hnext] at h
        by_cases hprev : (pyLower act == "previous") = true
        · rw [if_pos hprev] at h
          obtain ⟨u, h1, h⟩ := exmap_ok_inv h
          rw [Prod.mk.injEq] at h
          exact .inl ⟨_, h.1.symm⟩
        · rw [if_neg hprev, expure_eq_ok, Except.ok.injEq, Prod.mk.injEq] at h
          exact .inr ⟨_, by rw [← h.1]; rfl⟩

/-- C1: each of the four wrapped calls returns, for every input and every
oracle behaviour, either its success shape or a dictionary whose `"error"`
key holds a string; an unauthenticated client always gets the fixed
not-authenticated error. -/
theorem spotify_client_normalized (st : ClientState) (env : SpotifyEnv)
    (q : String) (lim : Int) (nm desc : String) (uris : List String)
    (act : String) (ctx : Option String) :
    (hasErrorStr (search_tracks st env q lim).1 ∨
      ∃ ts, (search_tracks st env q lim).1 = .obj [("tracks", .arr ts)]) ∧
    (hasErrorStr (create_playlist st env nm uris desc).1 ∨
      isCreateShape (create_playlist st env nm uris desc).1) ∧
    (hasErrorStr (control_playback st env act ctx).1 ∨
      ∃ s, (control_playback st env act ctx).1 =
        .obj [("success", .bool true), ("action", .str act), ("status", .str s)]) ∧
    (hasErrorStr (get_current_user_profile st env).1 ∨
      ∃ p, env.currentUserRes = .ok p ∧ (get_current_user_profile st env).1 = p) ∧
    ((ensureClient st env).1 = false →
      (search_tracks st env q lim).1 = notAuthDict ∧
      (create_playlist st env nm uris desc).1 = notAuthDict ∧
      (control_playback st env act ctx).1 = notAuthDict ∧
      (get_current_user_profile st env).1 = notAuthDict) := by
  refine ⟨?_, ?_, ?_, ?_, ?_⟩
  · unfold search_tracks
    cases hok : (ensureClient st env).1 with
    | false => exact .inl ⟨_, rfl⟩
    | true =>
      simp only [if_true]
      cases hb : searchBody env q lim with
      | error e => exact .inl (catchSpotify_error_shape e)
      | ok vt =>
        rcases vt with ⟨v, tr⟩
        rw [catchSpotify_ok]
        exact .inr (searchBody_ok_shape env q lim hb)
  · unfold create_playlist
    cases hok : (ensureClient st env).1 with
    | false => exact .inl ⟨_, rfl⟩
    | true =>
      simp only [if_true]
      cases hb : createPlaylistBody env nm uris desc with
      | error e => exact .inl (catchSpotify_error_shape e)
      | ok vt =>
        rcases vt with ⟨v, tr⟩
        rw [catchSpotify_ok]
        exact .inr (createPlaylistBody_ok_shape env nm uris desc hb)
  · unfold control_playback
    cases hok : (ensureClient st env).1 with
    | false => exact .inl ⟨_, rfl⟩
    | true =>
      simp only [if_true]
      cases hb : controlPlaybackBody env act ctx with
      | error e => exact .inl (catchPlayback_error_shape e)
      | ok vt =>
        rcases vt with ⟨v, tr⟩
        rw [catchPlayback_ok]
        rcases controlPlaybackBody_ok_shape env act ctx hb with ⟨s, hs⟩ | he
        · exact .inr ⟨s, hs⟩
        · exact .inl he
  · unfold get_current_user_profile
    cases hok : (ensureClient st env).1 with
    | false => exact .inl ⟨_, rfl⟩
    | true =>
      simp only [if_true]
      cases hc : env.currentUserRes with
      | error e => exact .inl (catchSpotify_error_shape e)
      | ok p => exact .inr ⟨p, rfl, rfl⟩
  · intro hno
    unfold search_tracks create_playlist control_playback get_current_user_profile
    simp [hno]

/-- Concrete instantiation of `spotify_client_normalized` on its
unauthenticated branch. -/
theorem spotify_client_normalized_witness :
    (search_tracks ⟨false, false⟩ envBase "q" 10).1 = notAuthDict ∧
    (create_playlist ⟨false, false⟩ envBase "n" [] "d").1 = notAuthDict ∧
    (control_playback ⟨false, false⟩ envBase "play" none).1 = notAuthDict ∧
    (get_current_user_profile ⟨false, false⟩ envBase).1 = notAuthDict :=
  (spotify_client_normalized ⟨false, false⟩ envBase "q" 10 "n" "d" [] "play"
    none).2.2.2.2 rfl


theorem getAllLoop_spec (env : SpotifyEnv) (pid : String) :
    ∀ (k : Nat) (pg : Nat → JVal) (itemsOf : Nat → List JVal) (nexts : Nat → JVal)
      (simps : Nat → List JVal) (lastKept : List JVal) (fuel : Nat) (off : Int),
    k < fuel →
    (∀ i, i ≤ k → env.playlistItemsRes (.str pid) getAllFields 100 (off + 100 * (i : Int))
      = .ok (pg i)) →
    (∀ i, i < k → pg i = .obj [("items", .arr (itemsOf i)), ("next", nexts i)]
      ∧ (nexts i).truthy = true) →
    (∀ i, i ≤ k → processItems (itemsOf i) = .ok (simps i)) →
    ((pg k = .obj [("items", .arr (itemsOf k))] ∧ lastKept = simps k) ∨
      ((pg k).truthy = false ∧ lastKept = []) ∨
      ((∃ kvs, pg k = .obj kvs ∧ kvs.lookup "items" = none) ∧ lastKept = [])) →
    getAllLoop env pid fuel off =
      .ok ((((List.range k).map simps).flatten ++ lastKept),
        (List.range (k + 1)).map
          (fun i : Nat => ApiCall.playlistItems (.str pid) getAllFields 100
            (off + 100 * (i : Int)))) := by
  intro k
  induction k with
  | zero =>
    intro pg itemsOf nexts simps lastKept fuel off hfuel hcall hgood hproc hlast
    match fuel, hfuel with
    | fuel + 1, _ =>
    have hc0 : env.playlistItemsRes (.str pid) getAllFields 100 off = .ok (pg 0) := by
      simpa using hcall 0 (le_refl 0)
    unfold getAllLoop
    rw [hc0]
    rcases hlast with ⟨hpg, hlk⟩ | ⟨ht, hlk⟩ | ⟨⟨kvs, hpg, hnone⟩, hlk⟩
    · subst hlk
      simp [exbind_ok, hpg,
        show (JVal.obj [("items", JVal.arr (itemsOf 0))]).truthy = true from rfl,
        pyContains,
        show (([("items", JVal.arr (itemsOf 0))].any (fun kv => kv.1 == "items")) = true)
          from rfl,
        pyIndex,
        show (List.lookup "items" [("items", JVal.arr (itemsOf 0))])
          = some (.arr (itemsOf 0)) from rfl,
        pyIter, hproc 0 (le_refl 0), pyGetD,
        show (List.lookup "next" [("items", JVal.arr (itemsOf 0))]) = none from rfl,
        show JVal.null.truthy = false from rfl, List.range_succ]
    · subst hlk
      simp [exbind_ok, ht, expure_eq_ok, List.range_succ]
    · subst hlk
      by_cases htr : (pg 0).truthy = true
      · have hany : (kvs.any (fun kv => kv.1 == "items")) = false := by
          rw [lookup_any_isSome, hnone]; rfl
        rw [hpg] at htr
        simp [exbind_ok, hpg, htr, pyContains, hany, expure_eq_ok, List.range_succ]
      · simp [exbind_ok, eq_false_of_ne_true htr, expure_eq_ok, List.range_succ]
  | succ k ih =>
    intro pg itemsOf nexts simps lastKept fuel off hfuel hcall hgood hproc hlast
    match fuel, hfuel with
    | fuel + 1, hfuel =>
    have hc0 : env.playlistItemsRes (.str pid) getAllFields 100 off = .ok (pg 0) := by
      simpa using hcall 0 (Nat.zero_le _)
    obtain ⟨hpg0, hnx0⟩ := hgood 0 (Nat.succ_pos k)
    have hshift : ∀ i : Nat, off + 100 + 100 * (i : Int) = off + 100 * ((i : Int) + 1) := by
      intro i; ring
    have hrec := ih (fun i => pg (i + 1)) (fun i => itemsOf (i + 1))
      (fun i => nexts (i + 1)) (fun i => simps (i + 1)) lastKept fuel (off + 100)
      (Nat.lt_of_succ_lt_succ hfuel)
      (fun i hi => by
        have := hcall (i + 1) (Nat.succ_le_succ hi)
        rw [show ((i + 1 : Nat) : Int) = (i : Int) + 1 by push_cast; ring] at this
        rw [hshift i]
        exact this)
      (fun i hi => hgood (i + 1) (Nat.succ_lt_succ hi))
      (fun i hi => hproc (i + 1) (Nat.succ_le_succ hi))
      (by
        rcases hlast with ⟨hpg, hlk⟩ | ⟨ht, hlk⟩ | ⟨⟨kvs, hpg, hnone⟩, hlk⟩
        · exact .inl ⟨hpg, hlk⟩
        · exact .inr (.inl ⟨ht, hlk⟩)
        · exact .inr (.inr ⟨⟨kvs, hpg, hnone⟩, hlk⟩))
    unfold getAllLoop
    rw [hc0]
    simp only [exbind_ok, hpg0,
      show (JVal.obj [("items", JVal.arr (itemsOf 0)), ("next", nexts 0)]).truthy = true
        from rfl,
      if_true, pyContains,
      show (([("items", JVal.arr (itemsOf 0)), ("next", nexts 0)].any
        (fun kv => kv.1 == "items")) = true) from rfl,
      pyIndex,
      show (List.lookup "items" [("items", JVal.arr (itemsOf 0)), ("next", nexts 0)])
        = some (.arr (itemsOf 0)) from rfl,
      pyIter, hproc 0 (Nat.zero_le _), pyGetD,
      show (List.lookup "next" [("items", JVal.arr (itemsOf 0)), ("next", nexts 0)])
        = some (nexts 0) from rfl,
      Option.getD_some, hnx0, hrec, eq_self_iff_true, ite_true]
    simp only [expure_eq_ok, exbind_ok, Except.ok.injEq, Prod.mk.injEq]
    constructor
    · rw [List.range_succ_eq_map, List.map_cons, List.map_map, List.flatten_cons,
        List.append_assoc]
      rfl
    · rw [List.range_succ_eq_map (k + 1), List.map_cons, List.map_map]
      congr 1
      · simp
      · apply List.map_congr_left
        intro i _
        simp only [Function.comp]
        rw [hshift i, Nat.succ_eq_add_one]
        push_cast
        ring_nf

/-- C9: `get_all_playlist_items`, authenticated and exception-free,
requests pages with `limit=100` and the offset advancing by exactly 100
per page, stops after the first page whose truthy `next` is missing (or
whose payload is falsy / lacks `items`), and returns under `"tracks"` the
in-order concatenation of the kept, simplified items of the fetched
pages. -/
theorem get_all_playlist_items_spec (st : ClientState) (env : SpotifyEnv) (pid : String)
    (k : Nat) (pg : Nat → JVal) (itemsOf : Nat → List JVal) (nexts : Nat → JVal)
    (simps : Nat → List JVal) (lastKept : List JVal) (fuel : Nat)
    (hauth : (ensureClient st env).1 = true)
    (hfuel : k < fuel)
    (hcall : ∀ i, i ≤ k →
      env.playlistItemsRes (.str pid) getAllFields 100 (100 * (i : Int)) = .ok (pg i))
    (hgood : ∀ i, i < k → pg i = .obj [("items", .arr (itemsOf i)), ("next", nexts i)]
      ∧ (nexts i).truthy = true)
    (hproc : ∀ i, i ≤ k → processItems (itemsOf i) = .ok (simps i))
    (hlast : (pg k = .obj [("items", .arr (itemsOf k))] ∧ lastKept = simps k) ∨
      ((pg k).truthy = false ∧ lastKept = []) ∨
      ((∃ kvs, pg k = .obj kvs ∧ kvs.lookup "items" = none) ∧ lastKept = [])) :
    get_all_playlist_items st env fuel pid =
      (.obj [("tracks", .arr (((List.range k).map simps).flatten ++ lastKept))],
        (List.range (k + 1)).map
          (fun i : Nat => ApiCall.playlistItems (.str pid) getAllFields 100
            (100 * (i : Int)))) := by
  have hloop := getAllLoop_spec env pid k pg itemsOf nexts simps lastKept fuel 0 hfuel
    (fun i hi => by simpa using hcall i hi) hgood hproc hlast
  unfold get_all_playlist_items
  rw [hauth]
  simp only [if_true, hloop, exbind_ok, expure_eq_ok, catchSpotify_ok]
  simp [zero_add]

/-- Concrete instantiation of `get_all_playlist_items_spec`: two pages,
the second without `next`. -/
theorem get_all_playlist_items_spec_witness :
    get_all_playlist_items ⟨true, true⟩ envPaging 2 "p" =
      (.obj [("tracks", .arr [mkSimp "T1" "A1" "u1" "i1", mkSimp "T2" "A2" "u2" "i2"])],
       [ApiCall.playlistItems (.str "p") getAllFields 100 0,
        ApiCall.playlistItems (.str "p") getAllFields 100 100]) := by
  have h := get_all_playlist_items_spec ⟨true, true⟩ envPaging "p" 1
    (fun i => if i == 0 then pageOne else pageTwo)
    (fun i => if i == 0 then [mkItem "T1" "A1" "u1" "i1"] else [mkItem "T2" "A2" "u2" "i2"])
    (fun _ => .str "nexturl")
    (fun i => if i == 0 then [mkSimp "T1" "A1" "u1" "i1"] else [mkSimp "T2" "A2" "u2" "i2"])
    [mkSimp "T2" "A2" "u2" "i2"]
    2 rfl (by decide)
    (by intro i hi; interval_cases i <;> simp [envPaging])
    (by intro i hi; interval_cases i; exact ⟨rfl, rfl⟩)
    (by intro i hi; interval_cases i <;> rfl)
    (.inl ⟨rfl, rfl⟩)
  simpa using h

theorem stepObsUpdate_fst (le : Option JVal) (obs : JVal) :
    (stepObsUpdate le obs).1 =
      (match truthyErrorOf obs with | some e => some e | none => le) := by
  unfold stepObsUpdate truthyErrorOf
  cases obs <;> dsimp only <;> try rfl
  split
  · simp_all
  · split <;> rfl

theorem extractSpec_truthy (obs : JVal) : (extractSpec obs).truthy = true := rfl

theorem truthyErrorOf_truthy {obs e : JVal} (h : truthyErrorOf obs = some e) :
    e.truthy = true := by
  unfold truthyErrorOf at h
  cases obs <;> simp at h
  rcases h with ⟨h1, h2⟩
  rw [← h2]
  exact h1

theorem truthyErrorOf_none_of_falsy {kvs : List (String × JVal)}
    (h : ((kvs.lookup "error").getD .null).truthy = false) :
    truthyErrorOf (.obj kvs) = none := by
  unfold truthyErrorOf
  simp [h]

theorem orFallback_truthy (le : Option JVal) (v : JVal) (h : orFallback le = some v) :
    v.truthy = true := by
  rcases le with _ | w
  · simp only [orFallback, Option.some_inj] at h
    rw [← h]
    rfl
  · by_cases hw : w.truthy = true
    · simp only [orFallback, hw, if_true, Option.some_inj] at h
      rw [← h]
      exact hw
    · simp only [orFallback, eq_false_of_ne_true hw, Bool.false_eq_true, if_false,
        Option.some_inj] at h
      rw [← h]
      rfl

theorem relayStep_spec (st0 : RelayState) (s : AgentStep)
    (hben : stepBenign s = true)
    (hinv0 : ∀ v, st0.lastError = some v → v.truthy = true) :
    ∃ st1, relayStep st0 s = .ok st1 ∧
      st1.playlist =
        (if isUrlCreate s then some (extractSpec s.observation) else st0.playlist) ∧
      st1.lastError =
        (match truthyErrorOf s.observation with
         | some e => some e
         | none => if isUrllessCreate s then orFallback st0.lastError
                   else st0.lastError) ∧
      (∀ v, st1.lastError = some v → v.truthy = true) := by
  have hfst := stepObsUpdate_fst st0.lastError s.observation
  unfold relayStep
  cases hobs : s.observation with
  | null =>
    rw [hobs] at hfst
    refine ⟨_, rfl, ?_, ?_, ?_⟩
    · simp [isUrlCreate, isCleanCreate, hobs]
    · simp [hfst, truthyErrorOf, isUrllessCreate, isCleanCreate, hobs]
    · intro v hv
      simp only [hfst, truthyErrorOf] at hv
      exact hinv0 v hv
  | bool b =>
    rw [hobs] at hfst
    refine ⟨_, rfl, ?_, ?_, ?_⟩
    · simp [isUrlCreate, isCleanCreate, hobs]
    · simp [hfst, truthyErrorOf, isUrllessCreate, isCleanCreate, hobs]
    · intro v hv
      simp only [hfst, truthyErrorOf] at hv
      exact hinv0 v hv
  | int n =>
    rw [hobs] at hfst
    refine ⟨_, rfl, ?_, ?_, ?_⟩
    · simp [isUrlCreate, isCleanCreate, hobs]
    · simp [hfst, truthyErrorOf, isUrllessCreate, isCleanCreate, hobs]
    · intro v hv
      simp only [hfst, truthyErrorOf] at hv
      exact hinv0 v hv
  | str t =>
    rw [hobs] at hfst
    refine ⟨_, rfl, ?_, ?_, ?_⟩
    · simp [isUrlCreate, isCleanCreate, hobs]
    · simp [hfst, truthyErrorOf, isUrllessCreate, isCleanCreate, hobs]
    · intro v hv
      simp only [hfst, truthyErrorOf] at hv
      exact hinv0 v hv
  | arr xs =>
    rw [hobs] at hfst
    refine ⟨_, rfl, ?_, ?_, ?_⟩
    · simp [isUrlCreate, isCleanCreate, hobs]
    · simp [hfst, truthyErrorOf, isUrllessCreate, isCleanCreate, hobs]
    · intro v hv
      simp only [hfst, truthyErrorOf] at hv
      exact hinv0 v hv
  | obj kvs =>
    rw [hobs] at hfst
    rcases hsu : stepObsUpdate st0.lastError (JVal.obj kvs) with ⟨le1, obsLine⟩
    rw [hsu] at hfst
    simp only at hfst
    dsimp only
    have hclean : isCleanCreate s =
        (s.tool == "spotify_create_playlist" &&
          !((kvs.lookup "error").getD .null).truthy) := by
      unfold isCleanCreate
      rw [hobs]
    by_cases hc : (s.tool == "spotify_create_playlist" &&
        !((kvs.lookup "error").getD .null).truthy) = true
    · -- clean create observation: the extraction runs
      have hcln : isCleanCreate s = true := by rw [hclean]; exact hc
      have herrf : ((kvs.lookup "error").getD .null).truthy = false := by
        rcases Bool.and_eq_true_iff.mp hc with ⟨-, h2⟩
        simpa using h2
      have hnoerr : truthyErrorOf (.obj kvs) = none := truthyErrorOf_none_of_falsy herrf
      rw [hnoerr] at hfst
      have hurl : playlistUrlOf s.observation =
          (match kvs.lookup "external_urls" with
           | some v => jget v "spotify"
           | none => .null) := by
        unfold playlistUrlOf pyLookup
        rw [hobs]
      cases hex : kvs.lookup "external_urls" with
      | none =>
        have hpu : (playlistUrlOf s.observation).truthy = false := by
          rw [hurl, hex]; rfl
        have hul : isUrllessCreate s = true := by
          unfold isUrllessCreate
          rw [hcln, hpu]
          rfl
        have hnu : isUrlCreate s = false := by
          unfold isUrlCreate
          rw [hcln, hpu]
          rfl
        have hext : extractPlaylist (.obj kvs) = .ok none := by
          unfold extractPlaylist
          simp only [pyGetD, hex, exbind_ok, Option.getD_none]
          rfl
        rw [hc]
        simp only [if_true, hext, exbind_ok]
        refine ⟨_, rfl, ?_, ?_, ?_⟩
        · simp [hnu]
        · simp only [hnoerr, hul, if_true, hfst, orFallback]
        · intro v hv
          simp only [hfst] at hv
          exact orFallback_truthy st0.lastError v hv
      | some exv =>
        cases exv with
        | obj ekvs =>
          have hpu : playlistUrlOf s.observation = (ekvs.lookup "spotify").getD .null := by
            rw [hurl, hex]
            rfl
          by_cases hurlT : ((ekvs.lookup "spotify").getD .null).truthy = true
          · -- a truthy url: the playlist is extracted
            have hyu : isUrlCreate s = true := by
              unfold isUrlCreate
              rw [hcln, hpu, hurlT]
              rfl
            have hnl : isUrllessCreate s = false := by
              unfold isUrllessCreate
              rw [hcln, hpu, hurlT]
              rfl
            have htrshape : (match kvs.lookup "tracks" with
                | none => true
                | some (.obj _) => true
                | some _ => false) = true := by
              unfold stepBenign at hben
              rw [hcln] at hben
              simp only [Bool.not_true, Bool.false_or, Bool.and_eq_true] at hben
              rcases hben with ⟨-, h2⟩
              rcases Bool.or_eq_true_iff.mp h2 with h3 | h3
              · rw [hpu, hurlT] at h3
                simp at h3
              · unfold pyLookup at h3
                rw [hobs] at h3
                exact h3
            have hext : extractPlaylist (.obj kvs)
                = .ok (some (extractSpec s.observation)) := by
              unfold extractPlaylist
              simp only [pyGetD, hex, Option.getD_some, exbind_ok, hurlT, if_true]
              cases htr : kvs.lookup "tracks" with
              | none =>
                simp only [Option.getD_none, exbind_ok, expure_eq_ok]
                rw [hobs]
                simp only [extractSpec, jget, playlistUrlOf, pyLookup, htr, hex]
                rfl
              | some trv =>
                cases trv <;> rw [htr] at htrshape <;> try simp at htrshape
                simp only [Option.getD_some, exbind_ok, expure_eq_ok]
                rw [hobs]
                simp only [extractSpec, jget, playlistUrlOf, pyLookup, htr, hex]
            rw [hc]
            simp only [if_true, hext, exbind_ok]
            refine ⟨_, rfl, ?_, ?_, ?_⟩
            · simp only [hyu, if_true, hobs]
            · simp [hnoerr, hfst, hnl]
            · intro v hv
              simp only [hfst] at hv
              exact hinv0 v hv
          · -- a falsy url: the fallback error is recorded
            have hpuf : (playlistUrlOf s.observation).truthy = false := by
              rw [hpu]
              exact eq_false_of_ne_true hurlT
            have hul : isUrllessCreate s = true := by
              unfold isUrllessCreate
              rw [hcln, hpuf]
              rfl
            have hnu : isUrlCreate s = false := by
              unfold isUrlCreate
              rw [hcln, hpuf]
              rfl
            have hext : extractPlaylist (.obj kvs) = .ok none := by
              unfold extractPlaylist
              simp only [pyGetD, hex, Option.getD_some, exbind_ok,
                eq_false_of_ne_true hurlT, Bool.false_eq_true, if_false, expure_eq_ok]
            rw [hc]
            simp only [if_true, hext, exbind_ok]
            refine ⟨_, rfl, ?_, ?_, ?_⟩
            · simp [hnu]
            · simp only [hnoerr, hul, if_true, hfst, orFallback]
            · intro v hv
              simp only [hfst] at hv
              exact orFallback_truthy st0.lastError v hv
        | null =>
          exfalso
          unfold stepBenign pyLookup at hben
          rw [hcln, hobs] at hben
          dsimp only at hben
          rw [hex] at hben
          simp at hben
        | bool b =>
          exfalso
          unfold stepBenign pyLookup at hben
          rw [hcln, hobs] at hben
          dsimp only at hben
          rw [hex] at hben
          simp at hben
        | int n =>
          exfalso
          unfold stepBenign pyLookup at hben
          rw [hcln, hobs] at hben
          dsimp only at hben
          rw [hex] at hben
          simp at hben
        | str t =>
          exfalso
          unfold stepBenign pyLookup at hben
          rw [hcln, hobs] at hben
          dsimp only at hben
          rw [hex] at hben
          simp at hben
        | arr xs =>
          exfalso
          unfold stepBenign pyLookup at hben
          rw [hcln, hobs] at hben
          dsimp only at hben
          rw [hex] at hben
          simp at hben
    · -- not a clean create observation
      have hcf : isCleanCreate s = false := by
        rw [hclean]
        exact eq_false_of_ne_true hc
      have hnu : isUrlCreate s = false := by
        unfold isUrlCreate
        rw [hcf]
        rfl
      have hnl : isUrllessCreate s = false := by
        unfold isUrllessCreate
        rw [hcf]
        rfl
      rw [eq_false_of_ne_true hc]
      simp only [Bool.false_eq_true, if_false]
      refine ⟨_, rfl, ?_, ?_, ?_⟩
      · simp [hnu]
      · simp only [hnl, hfst]
        split <;> simp
      · intro v hv
        simp only [hfst] at hv
        rcases he : truthyErrorOf (.obj kvs) with _ | e
        · rw [he] at hv
          exact hinv0 v hv
        · rw [he, Option.some_inj] at hv
          rw [← hv]
          exact truthyErrorOf_truthy he

theorem lastUrlCreate_truthy : ∀ {steps : List AgentStep} {p : JVal},
    lastUrlCreate steps = some p → p.truthy = true := by
  intro steps
  induction steps with
  | nil => intro p h; simp [lastUrlCreate] at h
  | cons s rest ih =>
    intro p h
    unfold lastUrlCreate at h
    cases hr : lastUrlCreate rest with
    | some q =>
      rw [hr, Option.some_inj] at h
      rw [← h]
      exact ih hr
    | none =>
      rw [hr] at h
      by_cases hu : isUrlCreate s = true
      · simp only [hu, if_true, Option.some_inj] at h
        rw [← h]
        exact extractSpec_truthy s.observation
      · rw [eq_false_of_ne_true hu] at h
        simp at h

theorem lastTruthyError_truthy : ∀ {steps : List AgentStep} {e : JVal},
    lastTruthyError steps = some e → e.truthy = true := by
  intro steps
  induction steps with
  | nil => intro e h; simp [lastTruthyError] at h
  | cons s rest ih =>
    intro e h
    unfold lastTruthyError at h
    cases hr : lastTruthyError rest with
    | some q =>
      rw [hr, Option.some_inj] at h
      rw [← h]
      exact ih hr
    | none =>
      rw [hr] at h
      exact truthyErrorOf_truthy h

theorem orFallback_isSome (le : Option JVal) : ∃ v, orFallback le = some v := by
  cases le with
  | none => exact ⟨_, rfl⟩
  | some w =>
    by_cases hw : w.truthy = true
    · exact ⟨w, by simp [orFallback, hw]⟩
    · exact ⟨.str "Playlist created, but failed to get URL.",
        by simp [orFallback, eq_false_of_ne_true hw]⟩

theorem orFallback_orFallback (le : Option JVal) :
    orFallback (orFallback le) = orFallback le := by
  rcases orFallback_isSome le with ⟨v, hv⟩
  have ht := orFallback_truthy le v hv
  rw [hv]
  simp [orFallback, ht]

theorem relayFold_spec (steps : List AgentStep) : ∀ (st0 : RelayState),
    (∀ s ∈ steps, stepBenign s = true) →
    (∀ v, st0.lastError = some v → v.truthy = true) →
    ∃ st1, steps.foldlM relayStep st0 = .ok st1 ∧
      st1.playlist = (match lastUrlCreate steps with
        | some p => some p
        | none => st0.playlist) ∧
      st1.lastError = (match lastTruthyError steps with
        | some e => some e
        | none => if anyUrlless steps then orFallback st0.lastError
                  else st0.lastError) ∧
      (∀ v, st1.lastError = some v → v.truthy = true) := by
  induction steps with
  | nil =>
    intro st0 _ hinv0
    exact ⟨st0, rfl, rfl, by simp [lastTruthyError, anyUrlless], hinv0⟩
  | cons s rest ih =>
    intro st0 hben hinv0
    rcases relayStep_spec st0 s (hben s (by simp)) hinv0 with
      ⟨st1, hstep, hpl, hle, hinv1⟩
    rcases ih st1 (fun t ht => hben t (by simp [ht])) hinv1 with
      ⟨st2, hfold, hpl2, hle2, hinv2⟩
    refine ⟨st2, ?_, ?_, ?_, hinv2⟩
    · rw [List.foldlM_cons, hstep, exbind_ok]
      exact hfold
    · rw [hpl2]
      cases hr : lastUrlCreate rest with
      | some p => simp [lastUrlCreate, hr]
      | none =>
        rw [hpl]
        simp only [lastUrlCreate, hr]
        by_cases hu : isUrlCreate s = true
        · simp [hu]
        · simp [eq_false_of_ne_true hu]
    · rw [hle2]
      cases her : lastTruthyError rest with
      | some e => simp [lastTruthyError, her]
      | none =>
        simp only [lastTruthyError, her, anyUrlless, List.any_cons]
        cases hte : truthyErrorOf s.observation with
        | some e =>
          rw [hte] at hle
          simp only at hle
          have het := truthyErrorOf_truthy hte
          rw [hle]
          dsimp only
          simp [orFallback, het]
        | none =>
          rw [hte] at hle
          simp only at hle
          dsimp only
          by_cases hus : isUrllessCreate s = true
          · rw [hus] at hle
            simp only [if_true] at hle
            rw [hle]
            by_cases hur : rest.any isUrllessCreate = true <;>
              simp [hur, hus, orFallback_orFallback]
          · rw [eq_false_of_ne_true hus] at hle
            simp only [Bool.false_eq_true, if_false] at hle
            rw [hle]
            simp [eq_false_of_ne_true hus]

/-- C3 counterexample: one step is a `spotify_create_playlist` call whose
observation is a dictionary without an `error` key (and without a spotify
URL); no step observed an error, yet the result is
`{"success": False, "error": "Playlist created, but failed to get URL."}`
where the claim predicts the generic success shape. -/
theorem process_request_url_missing_counterexample :
    (∀ s ∈ [(⟨"spotify_create_playlist", .obj [], .obj []⟩ : AgentStep)],
      truthyErrorOf s.observation = none) ∧
    pyLookup (process_request_agent true
        (.ok ⟨some "done", [⟨"spotify_create_playlist", .obj [], .obj []⟩]⟩))
      "success" = some (.bool false) ∧
    pyLookup (process_request_agent true
        (.ok ⟨some "done", [⟨"spotify_create_playlist", .obj [], .obj []⟩]⟩))
      "error" = some (.str "Playlist created, but failed to get URL.") := by
  refine ⟨?_, rfl, rfl⟩
  intro s hs
  simp only [List.mem_singleton] at hs
  subst hs
  rfl

/-- C3 (amended): `process_request` (agent.py), authenticated and on an
executor response whose create observations dereference dictionaries where
the extraction requires it, relays as follows: if some step is a
`spotify_create_playlist` call whose observation is a dictionary without a
truthy `error` value and carrying a truthy spotify external URL, the
result is the success/playlist shape with the details extracted from the
last such observation; otherwise, if some step's observation carried a
truthy `error` value, the result is the failure shape with the last such
error; otherwise, if some step was an error-free create without a truthy
URL, the result is the failure shape with the fallback error
`"Playlist created, but failed to get URL."`; otherwise the generic
success shape with the final output text. -/
theorem process_request_relay_spec (out : Option String) (steps : List AgentStep)
    (hben : ∀ s ∈ steps, stepBenign s = true) :
    ∃ expl : String,
      process_request_agent true (.ok ⟨out, steps⟩) =
      (match lastUrlCreate steps with
       | some p =>
         .obj [("success", .bool true), ("type", .str "playlist"), ("playlist", p),
           ("agent_steps_explanation", .str expl),
           ("raw_output", .str (out.getD "Task completed."))]
       | none =>
         match lastTruthyError steps with
         | some e =>
           .obj [("success", .bool false), ("error", e),
             ("agent_steps_explanation", .str expl)]
         | none =>
           if anyUrlless steps then
             .obj [("success", .bool false),
               ("error", .str "Playlist created, but failed to get URL."),
               ("agent_steps_explanation", .str expl)]
           else
             .obj [("success", .bool true), ("type", .str "generic"),
               ("message", .str (out.getD "Task completed.")),
               ("agent_steps_explanation", .str expl)]) := by
  rcases relayFold_spec steps ⟨none, none, []⟩ hben
      (by intro v hv; simp at hv) with ⟨st1, hfold, hpl, hle, hinv⟩
  refine ⟨String.intercalate "\n" st1.explanation, ?_⟩
  unfold process_request_agent
  simp only [Bool.not_true, Bool.false_eq_true, if_false, exbind_ok]
  rw [hfold]
  simp only [exbind_ok]
  cases hu : lastUrlCreate steps with
  | some p =>
    rw [hu] at hpl
    simp only at hpl
    have hpt := lastUrlCreate_truthy hu
    rw [hpl]
    simp [hpt, expure_eq_ok]
  | none =>
    rw [hu] at hpl
    simp only at hpl
    rw [hpl]
    cases he : lastTruthyError steps with
    | some e =>
      rw [he] at hle
      simp only at hle
      have het := lastTruthyError_truthy he
      rw [hle]
      simp [het, expure_eq_ok]
    | none =>
      rw [he] at hle
      simp only at hle
      by_cases ha : anyUrlless steps = true
      · rw [ha] at hle
        simp only [if_true] at hle
        have hft : (JVal.str "Playlist created, but failed to get URL.").truthy = true := rfl
        rw [hle, ha]
        simp [orFallback, expure_eq_ok, hft]
      · rw [eq_false_of_ne_true ha] at hle
        simp only [Bool.false_eq_true, if_false] at hle
        rw [hle, eq_false_of_ne_true ha]
        simp [expure_eq_ok]

theorem process_request_relay_spec_witness :
    (∀ s ∈ c3Steps, stepBenign s = true) ∧
    ∃ expl : String,
      process_request_agent true (.ok ⟨some "done", c3Steps⟩) =
      .obj [("success", .bool true), ("type", .str "playlist"),
        ("playlist", extractSpec c3Obs),
        ("agent_steps_explanation", .str expl),
        ("raw_output", .str "done")] := by
  refine ⟨by decide, ?_⟩
  rcases process_request_relay_spec (some "done") c3Steps (by decide) with ⟨expl, h⟩
  refine ⟨expl, ?_⟩
  rw [h]
  rfl
